import Mathlib

/-!
Shallow embedding of the core of the Data Quality Auditor
(semantic type classifier, check-dispatch engine, hypothesis router,
scoring aggregator) together with theorems settling the specification
claims. Numeric values are modelled with `ℚ`; external statistical
library calls (scipy / statsmodels / dateutil / regex matching) are
modelled as oracle parameters, since the claims are about the routing,
gating and aggregation logic around them, not about their internals.
-/

namespace DQA

/-- Modelled from the spec: `models/semantic_type.py` is not present under
`src/`; the closed `SemanticType` enumeration follows spec §3. -/
inductive SemanticType where
  | NUMERIC_CONTINUOUS
  | NUMERIC_DISCRETE
  | CATEGORICAL
  | BOOLEAN
  | DATE
  | DATETIME
  | EMAIL
  | PHONE
  | ID_CANDIDATE
  | HIGH_CARDINALITY
  | MIXED
  | EMPTY
  | CONSTANT
deriving DecidableEq, Repr

/-- `models/check_result.py`: the `CheckResult` dataclass.  The
heterogeneous `metadata` dict is modelled as a string association list
(only string-valued entries relevant to the claims are tracked). -/
structure CheckResult where
  check_id : String
  column : String
  passed : Bool
  severity : String
  value : ℚ
  threshold : ℚ
  message : String
  affected_count : Nat := 0
  affected_pct : ℚ := 0
  sample_values : List String := []
  metadata : List (String × String) := []
deriving DecidableEq, Repr

/-! ## Semantic type detector (`core/type_detector.py`) -/

/-- Whitespace characters removed by Python's `str.strip()`. -/
def isSpaceChar (c : Char) : Bool :=
  c = ' ' || c = '\t' || c = '\n' || c = '\r' || c = '\x0b' || c = '\x0c'

/-- Python's `str.strip()` (leading/trailing whitespace removal). -/
def pyStrip (s : String) : String :=
  ⟨((s.data.dropWhile isSpaceChar).reverse.dropWhile isSpaceChar).reverse⟩

/-- Python's `str.lower()` (per-character lowercasing). -/
def pyLower (s : String) : String :=
  ⟨s.data.map Char.toLower⟩

/-- `BOOLEAN_VALUES` from `core/type_detector.py`. -/
def BOOLEAN_VALUES : List String :=
  ["true", "false", "t", "f",
   "yes", "no", "y", "n",
   "si", "no", "sí",
   "1", "0",
   "verdadero", "falso"]

/-- Oracles abstracting the external pattern machinery used by
`TypeDetector._detect_column`: date parsing (`_check_dates`, via
`datetime.strptime` + `dateutil`), the e-mail and phone regexes, the
structural-ID heuristic (`_looks_like_id`), and the fixed-seed pandas
sampler (`Series.sample(n, random_state=42)`). -/
structure DetectOracles where
  checkDates : List String → Bool × ℚ
  emailPct : List String → ℚ
  phonePct : List String → ℚ
  looksLikeId : List String → Bool
  sample200 : List String → List String

/-- The null-likeness test of `TypeDetector._detect_column`: a raw value
is dropped from `non_empty_mask` iff, after `str.strip()`, it is the
empty string or lowercases to `"nan"`. -/
def codeNullLike (v : String) : Bool :=
  pyStrip v = "" || pyLower (pyStrip v) = "nan"

/-- `TypeDetector._detect_column` from `core/type_detector.py`, the part
below the EMPTY early-return (steps 2–6 of the decision order), applied to
the filtered `non_empty` values and to `n_nonnull`. -/
def detectColumnTail (o : DetectOracles) (non_empty : List String)
    (n_nonnull : Nat) (typedIsNumeric : Bool) : SemanticType :=
  let n_unique := non_empty.dedup.length
  if n_unique = 1 then SemanticType.CONSTANT
  else if n_unique = 2 ∧
      (non_empty.map pyLower).dedup.all (· ∈ BOOLEAN_VALUES) then
    SemanticType.BOOLEAN
  else if typedIsNumeric then
    let ratio : ℚ := if 0 < n_nonnull then (n_unique : ℚ) / (n_nonnull : ℚ) else 0
    if ratio < 5 / 100 then SemanticType.NUMERIC_DISCRETE
    else SemanticType.NUMERIC_CONTINUOUS
  else
    let sample := if 200 < non_empty.length then o.sample200 non_empty else non_empty
    let dates := o.checkDates sample
    if 80 / 100 < dates.2 then
      (if dates.1 then SemanticType.DATETIME else SemanticType.DATE)
    else if 80 / 100 < o.emailPct sample then SemanticType.EMAIL
    else if 80 / 100 < o.phonePct sample then SemanticType.PHONE
    else
      let ratio : ℚ := if 0 < n_nonnull then (n_unique : ℚ) / (n_nonnull : ℚ) else 0
      if 85 / 100 < ratio then
        (if o.looksLikeId sample then SemanticType.ID_CANDIDATE
         else SemanticType.HIGH_CARDINALITY)
      else if ratio < 15 / 100 then SemanticType.CATEGORICAL
      else SemanticType.HIGH_CARDINALITY

/-- `TypeDetector._detect_column` from `core/type_detector.py`.
`typedIsNumeric` stands for `pd.api.types.is_numeric_dtype(series_typed)`. -/
def detectColumn (o : DetectOracles) (series_raw : List String)
    (typedIsNumeric : Bool) : SemanticType :=
  let n_rows := series_raw.length
  if n_rows = 0 then SemanticType.EMPTY
  else
    let stripped := series_raw.map pyStrip
    let non_empty := stripped.filter
      (fun v => decide (v ≠ "") && decide (pyLower v ≠ "nan"))
    let n_nonnull := non_empty.length
    let null_pct : ℚ := 1 - (n_nonnull : ℚ) / (n_rows : ℚ)
    if null_pct ≥ 95 / 100 then SemanticType.EMPTY
    else detectColumnTail o non_empty n_nonnull typedIsNumeric

/-- The null-like-token predicate as the spec words it: empty string,
`"null"` or `"n/a"`, case-insensitively after trimming (used only to
compare the spec's claim against `codeNullLike`). -/
def specNullLike (v : String) : Bool :=
  pyLower (pyStrip v) = "" || pyLower (pyStrip v) = "null" || pyLower (pyStrip v) = "n/a"

/-- A trivial oracle instance (used to evaluate the detector at concrete
inputs on branches where the oracles are never consulted). -/
def trivialDetectOracles : DetectOracles where
  checkDates := fun _ => (false, 0)
  emailPct := fun _ => 0
  phonePct := fun _ => 0
  looksLikeId := fun _ => false
  sample200 := fun l => l


/-! ## Scoring aggregator (`core/scoring_system.py`) -/

/-- `SEVERITY_DEDUCTIONS` from `core/scoring_system.py`. -/
def SEVERITY_DEDUCTIONS : List (String × ℚ) :=
  [("CRITICAL", 25), ("HIGH", 10), ("MEDIUM", 5), ("LOW", 2), ("INFO", 0), ("PASS", 0)]

/-- `GRADE_SCALE` from `core/scoring_system.py`. -/
def GRADE_SCALE : List (ℚ × String) :=
  [(90, "A"), (75, "B"), (60, "C"), (40, "D"), (0, "F")]

/-- `_grade_from_score`: the first breakpoint at or below the score wins. -/
def gradeFromScore (score : ℚ) : String :=
  match GRADE_SCALE.find? (fun tg => tg.1 ≤ score) with
  | some tg => tg.2
  | none => "F"

/-- Python `dict.get(k)` over an association list. -/
def alistGet? {α : Type} (m : List (String × α)) (k : String) : Option α :=
  (m.find? (fun kv => kv.1 = k)).map (fun kv => kv.2)

/-- Python `dict.get(k, d)` over an association list. -/
def alistGetD {α : Type} (m : List (String × α)) (k : String) (d : α) : α :=
  (alistGet? m k).getD d

/-- Python's `round(x, 1)` on the exact rational value (ties are rounded
half away from zero; the binary-float tie behaviour of CPython is not
modelled). -/
def round1 (x : ℚ) : ℚ := ((round (10 * x) : ℤ) : ℚ) / 10

/-- Python's `round(x, 6)` on the exact rational value. -/
def round6 (x : ℚ) : ℚ := ((round (1000000 * x) : ℤ) : ℚ) / 1000000

/-- A `business_rules` YAML entry (`core/config_loader.py` docstring);
`none` fields model missing keys. -/
structure BusinessRule where
  name : Option String := none
  assertion : Option String := none
  severity : Option String := none

/-- A `foreign_keys` YAML entry; `none` fields model missing keys. -/
structure ForeignKey where
  child_table : Option String := none
  child_column : Option String := none
  parent_table : Option String := none
  parent_column : Option String := none

/-- The YAML configuration as parsed by `yaml.safe_load`, before
validation (`none` = section absent).  Numbers are modelled as `ℚ` and
severities as strings, so the `isinstance` type checks of
`_validate_config` are vacuous in this typed model; the value checks
(severity names, scoring keys, non-negativity, required fields) are kept. -/
structure RawConfig where
  thresholds : Option (List (String × List (String × ℚ))) := none
  disabled_checks : Option (List String) := none
  severity_overrides : Option (List (String × String)) := none
  scoring : Option (List (String × ℚ)) := none
  column_weights : Option (List (String × ℚ)) := none
  business_rules : Option (List BusinessRule) := none
  foreign_keys : Option (List ForeignKey) := none

/-- The validated configuration returned by `ConfigLoader.load`
(missing sections defaulted). -/
structure Config where
  thresholds : List (String × List (String × ℚ)) := []
  disabled_checks : List String := []
  severity_overrides : List (String × String) := []
  scoring : List (String × ℚ) := []
  column_weights : List (String × ℚ) := []
  business_rules : List BusinessRule := []
  foreign_keys : List ForeignKey := []

/-- `VALID_SEVERITIES` from `core/config_loader.py`. -/
def VALID_SEVERITIES : List String :=
  ["CRITICAL", "HIGH", "MEDIUM", "LOW", "INFO", "PASS"]

/-- `VALID_SCORING_KEYS` from `core/config_loader.py`. -/
def VALID_SCORING_KEYS : List String :=
  ["CRITICAL", "HIGH", "MEDIUM", "LOW", "INFO"]

/-- `_validate_config` from `core/config_loader.py`: collects the error
messages for every section (in source order). -/
def validateConfig (config : RawConfig) : List String :=
  let thresholdErrors :=
    match config.thresholds with
    | none => []
    | some ts => ts.flatMap (fun cl =>
        cl.2.flatMap (fun sv =>
          if sv.1 ∈ VALID_SEVERITIES then []
          else ["thresholds." ++ cl.1 ++ "." ++ sv.1 ++ ": severidad invalida"]))
  let overrideErrors :=
    match config.severity_overrides with
    | none => []
    | some ov => ov.flatMap (fun kv =>
        if kv.2 ∈ VALID_SEVERITIES then []
        else ["severity_overrides." ++ kv.1 ++ ": severidad invalida"])
  let scoringErrors :=
    match config.scoring with
    | none => []
    | some sc => sc.flatMap (fun kv =>
        (if kv.1 ∈ VALID_SCORING_KEYS then []
         else ["scoring." ++ kv.1 ++ ": clave invalida"]) ++
        (if kv.2 < 0 then ["scoring." ++ kv.1 ++ ": valor debe ser >= 0"] else []))
  let weightErrors :=
    match config.column_weights with
    | none => []
    | some ws => ws.flatMap (fun kv =>
        if kv.2 < 0 then ["column_weights." ++ kv.1 ++ ": peso debe ser >= 0"] else [])
  let ruleErrors :=
    match config.business_rules with
    | none => []
    | some rs => rs.flatMap (fun r =>
        (if r.assertion.isNone then ["business_rules: falta campo assertion"] else []) ++
        (match r.severity with
         | some sev =>
             if sev ∈ VALID_SEVERITIES then []
             else ["business_rules: severidad invalida"]
         | none => []))
  let fkErrors :=
    match config.foreign_keys with
    | none => []
    | some fks => fks.flatMap (fun fk =>
        if fk.child_table.isNone ∨ fk.child_column.isNone ∨
           fk.parent_table.isNone ∨ fk.parent_column.isNone
        then ["foreign_keys: faltan campos"] else [])
  thresholdErrors ++ overrideErrors ++ scoringErrors ++ weightErrors ++ ruleErrors ++ fkErrors

/-- `ConfigLoader.load`: validate eagerly, raise
(`Except.error`, modelling `ConfigValidationError`) if any error was
collected, otherwise return the section-defaulted configuration. -/
def ConfigLoader.load (raw : RawConfig) : Except String Config :=
  let errors := validateConfig raw
  if errors.isEmpty then
    Except.ok
      { thresholds := raw.thresholds.getD []
        disabled_checks := raw.disabled_checks.getD []
        severity_overrides := raw.severity_overrides.getD []
        scoring := raw.scoring.getD []
        column_weights := raw.column_weights.getD []
        business_rules := raw.business_rules.getD []
        foreign_keys := raw.foreign_keys.getD [] }
  else Except.error (String.intercalate "; " errors)

/-- `ConfigLoader.is_check_enabled`. -/
def ConfigLoader.isCheckEnabled (config : Option Config) (check_id : String) : Bool :=
  match config with
  | none => true
  | some c => !(c.disabled_checks.contains check_id)

/-- `ConfigLoader.get_severity_override`. -/
def ConfigLoader.getSeverityOverride (config : Option Config) (check_id : String) :
    Option String :=
  match config with
  | none => none
  | some c => alistGet? c.severity_overrides check_id

/-! ## Check engine (`core/check_engine.py`) -/

/-- A Python exception as observed by the executor's `except` clause:
`type(e).__name__` and `str(e)`. -/
structure PyExc where
  className : String
  msg : String

/-- A check function body: either returns a `CheckResult` or raises.
`α` packs the check's arguments `(series_raw, series_typed, metadata)`. -/
def CheckFun (α : Type) : Type := α → Except PyExc CheckResult

/-- A registry entry, cf. the export dicts with keys
`"check_id"` / `"function"`. -/
structure CheckDef (α : Type) where
  check_id : String
  function : CheckFun α

/-- `str(e)[:200]`. -/
def truncate200 (s : String) : String := s.take 200

/-- `CheckEngine._safe_execute`: run the body inside `try/except`; an
exception becomes a synthetic passed/INFO record carrying the exception
class name and the truncated message, never a crash. -/
def safeExecute {α : Type} (func : CheckFun α) (x : α)
    (check_id column : String) : CheckResult :=
  match func x with
  | Except.ok r => r
  | Except.error e =>
      { check_id := check_id
        column := column
        passed := true
        severity := "INFO"
        value := 0
        threshold := 0
        message := "Error al ejecutar check: " ++ e.className ++ ": " ++ truncate200 e.msg
        metadata := [("error", "True"), ("error_type", e.className)] }

/-- The severity-override step of `CheckEngine.run_all` (applied only to
failing results). -/
def applyOverride (config : Option Config) (check_id : String)
    (r : CheckResult) : CheckResult :=
  if r.passed then r
  else
    match ConfigLoader.getSeverityOverride config check_id with
    | some sev => { r with severity := sev }
    | none => r

/-- The inner loop of `CheckEngine.run_all` over one column's check list,
threading the run-scoped `_duplicate_checked` marker. -/
def runChecksForColumn {α : Type} (config : Option Config)
    (checks : List (CheckDef α)) (x : α) (col : String) (dup : Bool) :
    List CheckResult × Bool :=
  match checks with
  | [] => ([], dup)
  | c :: rest =>
    if !(ConfigLoader.isCheckEnabled config c.check_id) then
      runChecksForColumn config rest x col dup
    else if c.check_id = "DUPLICATE_ROWS" && dup then
      runChecksForColumn config rest x col dup
    else
      let dup1 := if c.check_id = "DUPLICATE_ROWS" then true else dup
      let r := applyOverride config c.check_id (safeExecute c.function x c.check_id col)
      let rest1 := runChecksForColumn config rest x col dup1
      (r :: rest1.1, rest1.2)

/-- The outer loop of `CheckEngine.run_all` over `column_types.items()`.
`registry` is `CheckRegistry.get_checks_for_type`; `input col` packs the
column's `(series_raw, series_typed, base_metadata)` arguments. -/
def runColumns {α : Type} (config : Option Config)
    (registry : SemanticType → List (CheckDef α))
    (column_types : List (String × SemanticType)) (input : String → α)
    (dup : Bool) : List CheckResult × Bool :=
  match column_types with
  | [] => ([], dup)
  | (col, stype) :: rest =>
    let cres := runChecksForColumn config (registry stype) (input col) col dup
    let rres := runColumns config registry rest input cres.2
    (cres.1 ++ rres.1, rres.2)

/-- `CheckEngine._run_dataset_checks`: each dataset-level analysis module
(cross-column, null-pattern, time-series, PII, temporal-completeness) is a
fallible producer of a record list; on exception a single synthetic
passed/INFO record with the group's check id is appended instead. -/
def runDatasetChecks
    (groups : List (String × (Unit → Except PyExc (List CheckResult)))) :
    List CheckResult :=
  groups.flatMap (fun g =>
    match g.2 () with
    | Except.ok rs => rs
    | Except.error e =>
        [{ check_id := g.1
           column := "__dataset__"
           passed := true
           severity := "INFO"
           value := 0
           threshold := 0
           message := "Error: " ++ e.className ++ ": " ++ truncate200 e.msg
           metadata := [("error", "True")] }])

/-- `CheckEngine.run_all` with a fresh engine (`_duplicate_checked` starts
`False` in `__init__`): per-column checks first, dataset-level analyses
appended after. -/
def runAll {α : Type} (config : Option Config)
    (registry : SemanticType → List (CheckDef α))
    (column_types : List (String × SemanticType)) (input : String → α)
    (datasetGroups : List (String × (Unit → Except PyExc (List CheckResult)))) :
    List CheckResult :=
  (runColumns config registry column_types input false).1 ++
    runDatasetChecks datasetGroups

/-- The ids of the checks `runChecksForColumn` actually executes (same
filter/skip logic, recording `check_id` instead of running the body). -/
def executedIdsForColumn {α : Type} (config : Option Config)
    (checks : List (CheckDef α)) (dup : Bool) : List String × Bool :=
  match checks with
  | [] => ([], dup)
  | c :: rest =>
    if !(ConfigLoader.isCheckEnabled config c.check_id) then
      executedIdsForColumn config rest dup
    else if c.check_id = "DUPLICATE_ROWS" && dup then
      executedIdsForColumn config rest dup
    else
      let dup1 := if c.check_id = "DUPLICATE_ROWS" then true else dup
      let rest1 := executedIdsForColumn config rest dup1
      (c.check_id :: rest1.1, rest1.2)

/-- The ids of the checks `runColumns` actually executes, across columns. -/
def executedIds {α : Type} (config : Option Config)
    (registry : SemanticType → List (CheckDef α))
    (column_types : List (String × SemanticType)) (dup : Bool) :
    List String × Bool :=
  match column_types with
  | [] => ([], dup)
  | (_, stype) :: rest =>
    let cres := executedIdsForColumn config (registry stype) dup
    let rres := executedIds config registry rest cres.2
    (cres.1 ++ rres.1, rres.2)


/-- One entry of the `column_scores` dict built by
`ScoringSystem.calculate`. -/
structure ColumnScore where
  score : ℚ
  grade : String
  checks_run : Nat
  checks_failed : Nat
deriving DecidableEq, Repr

/-- The dict returned by `ScoringSystem.calculate`. -/
structure ScoringReport where
  column_scores : List (String × ColumnScore)
  dataset_score : ℚ
  dataset_grade : String
  issues_by_severity : List (String × Nat)
  total_issues : Nat
deriving DecidableEq, Repr

/-- `ScoringSystem.__init__`: the default deduction table with the
configured `scoring` overrides applied to existing keys only. -/
def deductionsMap (config : Option Config) : List (String × ℚ) :=
  SEVERITY_DEDUCTIONS.map (fun kv =>
    match config with
    | none => kv
    | some c =>
      match alistGet? c.scoring kv.1 with
      | some v => (kv.1, v)
      | none => kv)

/-- `self._deductions.get(severity, 0)`. -/
def deductionFor (config : Option Config) (sev : String) : ℚ :=
  alistGetD (deductionsMap config) sev 0

/-- The distinct target columns of a result list (`defaultdict` grouping;
Python iterates keys in first-insertion order, which no score value
depends on, so an order-insensitive dedup is used). -/
def columnsOf (results : List CheckResult) : List String :=
  (results.map (fun r => r.column)).dedup

/-- The group `col_results[col]`. -/
def colResults (results : List CheckResult) (col : String) : List CheckResult :=
  results.filter (fun r => r.column = col)

/-- The per-column score before rounding: start at 100, deduct per failed
record by severity, floor at 0. -/
def columnRawScore (config : Option Config) (results : List CheckResult)
    (col : String) : ℚ :=
  max 0 (100 -
    (((colResults results col).filter (fun r => !r.passed)).map
      (fun r => deductionFor config r.severity)).sum)

/-- One `column_scores[col]` entry (score rounded to one decimal, grade
from the unrounded clamped score). -/
def columnScoreEntry (config : Option Config) (results : List CheckResult)
    (col : String) : ColumnScore :=
  { score := round1 (columnRawScore config results col)
    grade := gradeFromScore (columnRawScore config results col)
    checks_run := (colResults results col).length
    checks_failed := ((colResults results col).filter (fun r => !r.passed)).length }

/-- `self._column_weights` (empty when no config / no section). -/
def columnWeightsOf (config : Option Config) : List (String × ℚ) :=
  match config with
  | none => []
  | some c => c.column_weights

/-- The weight of one column in the dataset mean: the configured weight
if present, else `1 / (1 + null_pct)` with `null_pct` looked up in
`null_pcts` (default 0.0). -/
def datasetWeight (config : Option Config) (null_pcts : List (String × ℚ))
    (col : String) : ℚ :=
  match alistGet? (columnWeightsOf config) col with
  | some w => w
  | none => 1 / (1 + alistGetD null_pcts col 0)

/-- The columns entering the dataset mean: every scored column except the
reserved `"__dataset__"` pseudo-column. -/
def includedColumns (results : List CheckResult) : List String :=
  (columnsOf results).filter (fun c => c ≠ "__dataset__")

/-- `total_weight` of the dataset mean. -/
def totalWeight (config : Option Config) (results : List CheckResult)
    (null_pcts : List (String × ℚ)) : ℚ :=
  ((includedColumns results).map (fun c => datasetWeight config null_pcts c)).sum

/-- `weighted_sum` of the dataset mean (over the rounded stored column
scores, as in the source). -/
def weightedSum (config : Option Config) (results : List CheckResult)
    (null_pcts : List (String × ℚ)) : ℚ :=
  ((includedColumns results).map
    (fun c => (columnScoreEntry config results c).score *
      datasetWeight config null_pcts c)).sum

/-- `dataset_score` before rounding: the weighted mean, or `0.0` when the
total weight is not positive. -/
def datasetRawScore (config : Option Config) (results : List CheckResult)
    (null_pcts : List (String × ℚ)) : ℚ :=
  if 0 < totalWeight config results null_pcts then
    weightedSum config results null_pcts / totalWeight config results null_pcts
  else 0

/-- The keys of the `issues_by_severity` histogram (`PASS` excluded). -/
def ISSUE_SEVERITIES : List String := ["CRITICAL", "HIGH", "MEDIUM", "LOW", "INFO"]

/-- The severity-count histogram over failed records. -/
def issuesBySeverity (results : List CheckResult) : List (String × Nat) :=
  ISSUE_SEVERITIES.map (fun sev =>
    (sev, (results.filter (fun r => !r.passed && r.severity = sev)).length))

/-- `ScoringSystem.calculate` from `core/scoring_system.py`. -/
def ScoringSystem.calculate (config : Option Config) (results : List CheckResult)
    (null_pcts : List (String × ℚ)) : ScoringReport :=
  { column_scores := (columnsOf results).map
      (fun c => (c, columnScoreEntry config results c))
    dataset_score := round1 (datasetRawScore config results null_pcts)
    dataset_grade := gradeFromScore (datasetRawScore config results null_pcts)
    issues_by_severity := issuesBySeverity results
    total_issues := ((issuesBySeverity results).map (fun kv => kv.2)).sum }

/-! ## Hypothesis checks (`checks/hypothesis_checks.py`) -/

/-- `MIN_SAMPLE` from `checks/hypothesis_checks.py`. -/
def MIN_SAMPLE : Nat := 20

/-- `ALPHA` from `checks/hypothesis_checks.py`. -/
def ALPHA : ℚ := 5 / 100

/-- `_numeric`: `pd.to_numeric(series, errors="coerce").dropna()` —
the typed series with non-numeric entries dropped. -/
def numericSeries (series_typed : List (Option ℚ)) : List ℚ :=
  series_typed.filterMap id

/-- `_split_halves`. -/
def splitHalves (s : List ℚ) : List ℚ × List ℚ :=
  (s.take (s.length / 2), s.drop (s.length / 2))

/-- `Series.mean()` (only applied to non-empty halves). -/
def listMean (s : List ℚ) : ℚ := s.sum / (s.length : ℚ)

/-- `Series.var()` (pandas sample variance, ddof = 1). -/
def listVar (s : List ℚ) : ℚ :=
  if s.length ≤ 1 then 0
  else (s.map (fun x => (x - listMean s) ^ 2)).sum / ((s.length : ℚ) - 1)

/-- Oracles abstracting the scipy / statsmodels statistical tests: each
returns `(statistic, p_value)` for the given sample(s).  `sample n`
models `Series.sample(n=n, random_state=42)` (fixed seed).  `shapiro` and
`normaltest` can raise (the `try/except` of `_is_normal`); `adfuller`
returns `none` when statsmodels is unavailable (the `ImportError`
branch). The scipy version-compatibility fallbacks of the Anderson and
Lilliefors checks are folded into their oracles. -/
structure StatsOracles where
  sample : Nat → List ℚ → List ℚ
  shapiro : List ℚ → Except PyExc (ℚ × ℚ)
  normaltest : List ℚ → Except PyExc (ℚ × ℚ)
  ttest_ind_welch : List ℚ → List ℚ → ℚ × ℚ
  mannwhitneyu_two_sided : List ℚ → List ℚ → ℚ × ℚ
  wilcoxon : List ℚ → List ℚ → ℚ × ℚ
  bartlett : List ℚ → List ℚ → ℚ × ℚ
  levene_median : List ℚ → List ℚ → ℚ × ℚ
  anderson : List ℚ → ℚ × ℚ
  lilliefors : List ℚ → ℚ × ℚ
  kstest_norm : List ℚ → ℚ × ℚ
  adfuller : List ℚ → Option (ℚ × ℚ)
  kruskal : List (List ℚ) → ℚ × ℚ

/-- `_is_normal`: the normality gate.  Fewer than 8 values is never
normal; below 5,000 values Shapiro–Wilk on the fixed-seed sample, at or
above 5,000 the omnibus `normaltest` on a 5,000-value fixed-seed sample;
normal iff `p > 0.05`; any exception means not normal. -/
def isNormal (o : StatsOracles) (s : List ℚ) : Bool :=
  if s.length < 8 then false
  else
    let r := if s.length < 5000 then o.shapiro (o.sample (min s.length 5000) s)
             else o.normaltest (o.sample 5000 s)
    match r with
    | Except.ok sp => decide (ALPHA < sp.2)
    | Except.error _ => false

/-- `check_mean_comparison` (check id `MEAN_SHIFT`): the adaptive
mean-shift check.  The f-string numeric formatting inside `message` is
elided; the routed test's name is kept in `message` and in
`metadata["test"]`. -/
def check_mean_comparison (o : StatsOracles) (colName : String)
    (series_typed : List (Option ℚ)) : CheckResult :=
  let s := numericSeries series_typed
  if s.length < MIN_SAMPLE * 2 then
    { check_id := "MEAN_SHIFT", column := colName, passed := true, severity := "PASS",
      value := 0, threshold := ALPHA,
      message := "Datos insuficientes para comparación de medias" }
  else
    let h1 := (splitHalves s).1
    let h2 := (splitHalves s).2
    let routed :=
      if isNormal o h1 && isNormal o h2 then
        (o.ttest_ind_welch h1 h2, "Welch t-test (paramétrico)")
      else
        (o.mannwhitneyu_two_sided h1 h2, "Mann-Whitney U (no paramétrico)")
    let p_value := routed.1.2
    let test_name := routed.2
    let is_significant := decide (p_value < ALPHA)
    let diff_pct :=
      if listMean h1 ≠ 0 then |listMean h1 - listMean h2| / listMean h1 * 100 else 0
    let severity :=
      if is_significant && decide (20 < diff_pct) then "HIGH"
      else if is_significant then "MEDIUM"
      else "PASS"
    { check_id := "MEAN_SHIFT", column := colName, passed := !is_significant,
      severity := severity, value := round6 p_value, threshold := ALPHA,
      message := test_name,
      metadata := [("test", test_name)] }

/-- `check_wilcoxon_paired` (check id `WILCOXON_PAIRED`). -/
def check_wilcoxon_paired (o : StatsOracles) (colName : String)
    (series_typed : List (Option ℚ)) : CheckResult :=
  let s := numericSeries series_typed
  if s.length < MIN_SAMPLE * 2 then
    { check_id := "WILCOXON_PAIRED", column := colName, passed := true, severity := "PASS",
      value := 0, threshold := ALPHA,
      message := "Datos insuficientes para Wilcoxon pareado" }
  else
    let h1 := (splitHalves s).1
    let h2 := (splitHalves s).2
    let min_len := min h1.length h2.length
    let g1 := h1.take min_len
    let g2 := h2.take min_len
    let diffs := List.zipWith (fun a b => a - b) g1 g2
    if diffs.all (fun d => d = 0) then
      { check_id := "WILCOXON_PAIRED", column := colName, passed := true, severity := "PASS",
        value := 1, threshold := ALPHA,
        message := "Sin diferencias entre segmentos pareados" }
    else
      let sp := o.wilcoxon g1 g2
      let is_significant := decide (sp.2 < ALPHA)
      { check_id := "WILCOXON_PAIRED", column := colName, passed := !is_significant,
        severity := if is_significant then "MEDIUM" else "PASS",
        value := round6 sp.2, threshold := ALPHA,
        message := "Wilcoxon signed-rank",
        metadata := [("test", "Wilcoxon signed-rank")] }

/-- `check_variance_comparison` (check id `VARIANCE_SHIFT`); the
`float("inf")` ratio (zero variance in the second half) is modelled as
`none`. -/
def check_variance_comparison (o : StatsOracles) (colName : String)
    (series_typed : List (Option ℚ)) : CheckResult :=
  let s := numericSeries series_typed
  if s.length < MIN_SAMPLE * 2 then
    { check_id := "VARIANCE_SHIFT", column := colName, passed := true, severity := "PASS",
      value := 0, threshold := ALPHA,
      message := "Datos insuficientes para comparación de varianzas" }
  else
    let h1 := (splitHalves s).1
    let h2 := (splitHalves s).2
    let routed :=
      if isNormal o h1 && isNormal o h2 then
        (o.bartlett h1 h2, "Bartlett (paramétrico)")
      else
        (o.levene_median h1 h2, "Levene (no paramétrico)")
    let p_value := routed.1.2
    let is_significant := decide (p_value < ALPHA)
    let var_ratio : Option ℚ :=
      if 0 < listVar h2 then some (listVar h1 / listVar h2) else none
    let ratio_extreme :=
      match var_ratio with
      | some vr => decide (3 < vr) || decide (vr < 1/3)
      | none => true
    let severity :=
      if is_significant && ratio_extreme then "HIGH"
      else if is_significant then "MEDIUM"
      else "PASS"
    { check_id := "VARIANCE_SHIFT", column := colName, passed := !is_significant,
      severity := severity, value := round6 p_value, threshold := ALPHA,
      message := routed.2,
      metadata := [("test", routed.2)] }

/-- `check_normality_anderson` (check id `NORMALITY_ANDERSON`). -/
def check_normality_anderson (o : StatsOracles) (colName : String)
    (series_typed : List (Option ℚ)) : CheckResult :=
  let s := numericSeries series_typed
  if s.length < MIN_SAMPLE then
    { check_id := "NORMALITY_ANDERSON", column := colName, passed := true,
      severity := "PASS", value := 0, threshold := 0,
      message := "Datos insuficientes para Anderson-Darling" }
  else
    let sp := o.anderson s
    let is_normal := decide ((5:ℚ)/100 ≤ sp.2)
    { check_id := "NORMALITY_ANDERSON", column := colName, passed := is_normal,
      severity := if is_normal then "PASS" else "INFO",
      value := round6 sp.1, threshold := 5/100,
      message := "Anderson-Darling" }

/-- `check_normality_lilliefors` (check id `NORMALITY_LILLIEFORS`). -/
def check_normality_lilliefors (o : StatsOracles) (colName : String)
    (series_typed : List (Option ℚ)) : CheckResult :=
  let s := numericSeries series_typed
  if s.length < MIN_SAMPLE then
    { check_id := "NORMALITY_LILLIEFORS", column := colName, passed := true,
      severity := "PASS", value := 0, threshold := ALPHA,
      message := "Datos insuficientes para Lilliefors" }
  else
    let sp := o.lilliefors s
    let is_normal := decide (ALPHA < sp.2)
    { check_id := "NORMALITY_LILLIEFORS", column := colName, passed := is_normal,
      severity := if is_normal then "PASS" else "INFO",
      value := round6 sp.2, threshold := ALPHA,
      message := "Lilliefors" }

/-- `check_ks_goodness_of_fit` (check id `KS_GOODNESS_FIT`). -/
def check_ks_goodness_of_fit (o : StatsOracles) (colName : String)
    (series_typed : List (Option ℚ)) : CheckResult :=
  let s := numericSeries series_typed
  if s.length < MIN_SAMPLE then
    { check_id := "KS_GOODNESS_FIT", column := colName, passed := true,
      severity := "PASS", value := 0, threshold := ALPHA,
      message := "Datos insuficientes para KS goodness-of-fit" }
  else
    let sp := o.kstest_norm s
    let fits_normal := decide (ALPHA < sp.2)
    { check_id := "KS_GOODNESS_FIT", column := colName, passed := fits_normal,
      severity := if fits_normal then "PASS" else "INFO",
      value := round6 sp.2, threshold := ALPHA,
      message := "KS goodness-of-fit" }

/-- `check_stationarity_adf` (check id `ADF_STATIONARITY`); note the
source gates at 30 values, not at `MIN_SAMPLE`. -/
def check_stationarity_adf (o : StatsOracles) (colName : String)
    (series_typed : List (Option ℚ)) : CheckResult :=
  let s := numericSeries series_typed
  if s.length < 30 then
    { check_id := "ADF_STATIONARITY", column := colName, passed := true,
      severity := "PASS", value := 0, threshold := ALPHA,
      message := "Datos insuficientes para test ADF" }
  else
    match o.adfuller s with
    | none =>
      { check_id := "ADF_STATIONARITY", column := colName, passed := true,
        severity := "INFO", value := 0, threshold := ALPHA,
        message := "statsmodels no disponible para test ADF" }
    | some sp =>
      let p_value := sp.2
      let is_stationary := decide (p_value < ALPHA)
      let severity :=
        if !is_stationary && decide ((10:ℚ)/100 < p_value) then "MEDIUM"
        else if !is_stationary then "LOW"
        else "PASS"
      { check_id := "ADF_STATIONARITY", column := colName, passed := is_stationary,
        severity := severity, value := round6 p_value, threshold := ALPHA,
        message := "ADF" }

/-- The slice of the full dataframe that `check_kruskal_wallis` consults:
the candidate grouping columns (object dtype with 2–20 distinct values,
this column excluded) and, per grouping column, the numeric value groups
with at least 5 members (the `groupby` + `to_numeric` + `dropna` step). -/
structure KruskalDF where
  cat_cols : List String
  groupsFor : String → List (List ℚ)

/-- `check_kruskal_wallis` (check id `KRUSKAL_WALLIS`); `metadata["_df"]`
is `df?`. -/
def check_kruskal_wallis (o : StatsOracles) (colName : String)
    (series_typed : List (Option ℚ)) (df? : Option KruskalDF) : CheckResult :=
  match df? with
  | none =>
    { check_id := "KRUSKAL_WALLIS", column := colName, passed := true,
      severity := "PASS", value := 0, threshold := ALPHA,
      message := "Sin acceso al DataFrame completo" }
  | some df =>
    let s := numericSeries series_typed
    if s.length < MIN_SAMPLE then
      { check_id := "KRUSKAL_WALLIS", column := colName, passed := true,
        severity := "PASS", value := 0, threshold := ALPHA,
        message := "Datos insuficientes" }
    else if df.cat_cols.isEmpty then
      { check_id := "KRUSKAL_WALLIS", column := colName, passed := true,
        severity := "PASS", value := 0, threshold := ALPHA,
        message := "No hay columnas categóricas con 2-20 grupos para Kruskal-Wallis" }
    else
      let results_list := (df.cat_cols.take 3).filterMap (fun cat_col =>
        let groups := df.groupsFor cat_col
        if groups.length < 2 then none
        else some (cat_col, (o.kruskal groups).2))
      let significant := results_list.filter (fun r => decide (r.2 < ALPHA))
      let severity :=
        if results_list.isEmpty then "PASS"
        else if !significant.isEmpty then "INFO"
        else "PASS"
      { check_id := "KRUSKAL_WALLIS", column := colName, passed := true,
        severity := severity, value := (significant.length : ℚ), threshold := ALPHA,
        message := "Kruskal-Wallis" }

/-! ## Pipeline ordering (`data_quality_auditor.py` main flow) -/

/-- The `main` flow of `data_quality_auditor.py` restricted to the core:
`ConfigLoader.load` runs (and may raise) before `CheckEngine.run_all`
executes any check. -/
def auditRun {α : Type} (raw : RawConfig)
    (registry : SemanticType → List (CheckDef α))
    (column_types : List (String × SemanticType)) (input : String → α)
    (datasetGroups : List (String × (Unit → Except PyExc (List CheckResult)))) :
    Except String (List CheckResult) :=
  match ConfigLoader.load raw with
  | Except.error e => Except.error e
  | Except.ok cfg =>
      Except.ok (runAll (some cfg) registry column_types input datasetGroups)


/-- The spec's example column `[50]*50 + [100]*50` as a typed series. -/
def c2series : List (Option ℚ) :=
  List.replicate 50 (some 50) ++ List.replicate 50 (some 100)

/-- A trivial statistics-oracle instance (every test returns `(0, 0)`),
used for concrete witnesses. -/
def trivialStatsOracles : StatsOracles where
  sample := fun _ l => l
  shapiro := fun _ => Except.ok (0, 0)
  normaltest := fun _ => Except.ok (0, 0)
  ttest_ind_welch := fun _ _ => (0, 0)
  mannwhitneyu_two_sided := fun _ _ => (0, 0)
  wilcoxon := fun _ _ => (0, 0)
  bartlett := fun _ _ => (0, 0)
  levene_median := fun _ _ => (0, 0)
  anderson := fun _ => (0, 0)
  lilliefors := fun _ => (0, 0)
  kstest_norm := fun _ => (0, 0)
  adfuller := fun _ => none
  kruskal := fun _ => (0, 0)

/-- The `scoring` section seen by `ScoringSystem.__init__` (empty when
no config was given). -/
def scoringOf (config : Option Config) : List (String × ℚ) :=
  match config with
  | none => []
  | some c => c.scoring

/-- Concrete result records and null fractions used to compare the
aggregator against the spec's dataset-mean formula. -/
def c5rA : CheckResult :=
  { check_id := "A1", column := "A", passed := true, severity := "PASS",
    value := 0, threshold := 0, message := "" }

def c5rB : CheckResult :=
  { check_id := "B1", column := "B", passed := false, severity := "MEDIUM",
    value := 0, threshold := 0, message := "" }

def c5rBpass : CheckResult :=
  { check_id := "B1", column := "B", passed := true, severity := "PASS",
    value := 0, threshold := 0, message := "" }

def c5results : List CheckResult := [c5rA, c5rB]

def c5equalResults : List CheckResult := [c5rA, c5rBpass]

def c5nullpcts : List (String × ℚ) := [("A", 0), ("B", 1)]

/-- The dataset score exactly as the spec words it: the weighted mean of
the per-column scores with weight `1/(1+null_fraction)`, the reserved
`"__dataset__"` pseudo-column excluded (stated for comparison against
`ScoringSystem.calculate`; in `ℚ`, division by a zero total weight gives
0). -/
def specDatasetMean (config : Option Config) (results : List CheckResult)
    (null_pcts : List (String × ℚ)) : ℚ :=
  ((includedColumns results).map
    (fun c => (columnScoreEntry config results c).score *
      (1 / (1 + alistGetD null_pcts c 0)))).sum /
  ((includedColumns results).map (fun c => 1 / (1 + alistGetD null_pcts c 0))).sum

/-- A well-behaved DUPLICATE_ROWS result record (used in witnesses). -/
def dupRec : CheckResult :=
  { check_id := "DUPLICATE_ROWS", column := "__dataset__", passed := true,
    severity := "PASS", value := 0, threshold := 0, message := "" }

/-! ## Theorems -/

/-- For `n > 0` and `cnt ≤ n`, the detector's null-percentage test
`1 - (n - cnt)/n ≥ 0.95` is the same as `95·n ≤ 100·cnt`. -/
theorem nullpct_key (n cnt : ℕ) (hn : ¬ n = 0) (hc : cnt ≤ n) :
    (95/100 ≤ 1 - ((n - cnt : ℕ) : ℚ)/(n:ℚ)) ↔ 95*n ≤ 100*cnt := by
  have hn0 : (0:ℚ) < (n:ℚ) := by
    have : 0 < n := Nat.pos_of_ne_zero hn
    exact_mod_cast this
  rw [Nat.cast_sub hc]
  have he : 1 - ((n:ℚ) - (cnt:ℚ))/(n:ℚ) = (cnt:ℚ)/(n:ℚ) := by field_simp
  rw [he, le_div_iff₀ hn0]
  constructor
  · intro h
    have h3 : (95:ℚ)*n ≤ 100*cnt := by nlinarith
    exact_mod_cast h3
  · intro h
    have h3 : (95:ℚ)*n ≤ 100*cnt := by exact_mod_cast h
    nlinarith

/-- The `non_empty` view built by `_detect_column` keeps exactly the
values that are not null-like in the code's sense. -/
theorem countNonNull (series : List String) :
    ((series.map pyStrip).filter
      (fun v => decide (v ≠ "") && decide (pyLower v ≠ "nan"))).length
      = series.length - series.countP codeNullLike := by
  rw [← List.countP_eq_length_filter, List.countP_map]
  have hf : ((fun v => decide (v ≠ "") && decide (pyLower v ≠ "nan")) ∘ pyStrip)
      = fun v => !codeNullLike v := by
    funext v
    simp only [Function.comp, codeNullLike, Bool.not_or]
    simp [decide_not]
  rw [hf]
  have h2 := List.length_eq_countP_add_countP codeNullLike series
  have h3 : (List.countP (fun a => decide ¬(codeNullLike a = true)) series)
      = List.countP (fun v => !codeNullLike v) series := by
    congr 1
    funext a
    simp [decide_not]
  omega

/-- No branch of the classifier below the EMPTY early-return can produce
EMPTY. -/
theorem detectColumnTail_ne_EMPTY (o : DetectOracles) (ne : List String)
    (nn : ℕ) (tn : Bool) : detectColumnTail o ne nn tn ≠ SemanticType.EMPTY := by
  unfold detectColumnTail
  dsimp only
  repeat' split
  all_goals intro h
  all_goals exact SemanticType.noConfusion h


/-- C3: the classifier's EMPTY decision counts a value as null-like iff
its trimmed form is empty or lowercases to `"nan"`; the spec's tokens
`"null"` and `"n/a"` are NOT null-like to the code.  A column of twenty
`"null"` strings is 100% null-like in the claim's sense, yet the
classifier returns CONSTANT, not EMPTY, for every oracle choice (the
branch taken consults no oracle), refuting the claim as stated. -/
theorem null_token_column_not_EMPTY :
    95 * (List.replicate 20 "null").length ≤
      100 * (List.replicate 20 "null").countP specNullLike
    ∧ detectColumn trivialDetectOracles (List.replicate 20 "null") false =
        SemanticType.CONSTANT
    ∧ SemanticType.CONSTANT ≠ SemanticType.EMPTY := by
  refine ⟨by decide, ?_, by decide⟩
  have h1 : ((List.replicate 20 "null").map pyStrip).filter
      (fun v => decide (v ≠ "") && decide (pyLower v ≠ "nan")) =
      List.replicate 20 "null" := by decide
  unfold detectColumn
  dsimp only
  rw [h1]
  rw [if_neg (by decide), if_neg (by norm_num)]
  unfold detectColumnTail
  dsimp only
  rw [if_pos (by decide)]

/-- C3 (amended): for every column (and every oracle instantiation of the
external parsers), the classifier returns EMPTY iff at least 95% of the
raw values are null-like in the code's sense — trimmed-empty or
case-insensitively `"nan"` — this test being decided before any other
classification test. -/
theorem detectColumn_EMPTY_iff (o : DetectOracles) (series : List String) (tn : Bool) :
    detectColumn o series tn = SemanticType.EMPTY ↔
      95 * series.length ≤ 100 * series.countP codeNullLike := by
  have hle : series.countP codeNullLike ≤ series.length := List.countP_le_length _
  simp only [detectColumn]
  split_ifs with h0 h1
  · simp only [List.length_eq_zero] at h0
    subst h0
    simp
  · rw [countNonNull] at h1
    simp only [true_iff]
    exact (nullpct_key _ _ h0 hle).mp h1
  · rw [countNonNull] at h1
    constructor
    · intro hcon
      exact absurd hcon (detectColumnTail_ne_EMPTY _ _ _ _)
    · intro hcon
      exact absurd ((nullpct_key _ _ h0 hle).mpr hcon) h1


theorem isNormal_iff (o : StatsOracles) (g : List ℚ) :
    isNormal o g = true ↔
      (8 ≤ g.length ∧
        ((g.length < 5000 ∧ ∃ st p,
            o.shapiro (o.sample (min g.length 5000) g) = Except.ok (st, p) ∧ ALPHA < p)
         ∨ (5000 ≤ g.length ∧ ∃ st p,
            o.normaltest (o.sample 5000 g) = Except.ok (st, p) ∧ ALPHA < p))) := by
  unfold isNormal
  dsimp only
  by_cases h8 : g.length < 8
  · rw [if_pos h8]
    simp only [Bool.false_eq_true, false_iff]
    intro hc
    omega
  · rw [if_neg h8]
    by_cases h5 : g.length < 5000
    · rw [if_pos h5]
      cases hres : o.shapiro (o.sample (min g.length 5000) g) with
      | ok sp =>
        dsimp only
        simp only [decide_eq_true_eq]
        constructor
        · intro hp
          refine ⟨by omega, Or.inl ⟨h5, sp.1, sp.2, ?_, hp⟩⟩
          rw [Prod.mk.eta]
        · rintro ⟨-, ⟨-, st, p, heq, hp⟩ | ⟨hge, -⟩⟩
          · injection heq with heq2
            rw [heq2]
            exact hp
          · omega
      | error e =>
        dsimp only
        simp only [Bool.false_eq_true, false_iff]
        rintro ⟨-, ⟨-, st, p, heq, -⟩ | ⟨hge, -⟩⟩
        · exact Except.noConfusion heq
        · omega
    · rw [if_neg h5]
      cases hres : o.normaltest (o.sample 5000 g) with
      | ok sp =>
        dsimp only
        simp only [decide_eq_true_eq]
        constructor
        · intro hp
          refine ⟨by omega, Or.inr ⟨by omega, sp.1, sp.2, ?_, hp⟩⟩
          rw [Prod.mk.eta]
        · rintro ⟨-, ⟨hlt, -⟩ | ⟨-, st, p, heq, hp⟩⟩
          · omega
          · injection heq with heq2
            rw [heq2]
            exact hp
      | error e =>
        dsimp only
        simp only [Bool.false_eq_true, false_iff]
        rintro ⟨-, ⟨hlt, -⟩ | ⟨-, st, p, heq, -⟩⟩
        · omega
        · exact Except.noConfusion heq


/-- C1: for a numeric column whose cleaned series has at least 20 values
per temporal half (40 in total), the mean-shift check (i) gives both
halves at least 20 values, (ii) applies the normality gate to each half
independently, where the gate draws the fixed-seed sample, uses
Shapiro–Wilk below 5,000 values and the omnibus normality test at or
above, and calls a group normal iff `p > 0.05`, and (iii) routes to
Welch's t-test when both halves pass the gate and to the two-sided
Mann–Whitney U test otherwise. -/
theorem mean_shift_gate_and_routing
    (o : StatsOracles) (col : String) (series : List (Option ℚ))
    (hlen : 40 ≤ (numericSeries series).length) :
    (20 ≤ (splitHalves (numericSeries series)).1.length ∧
     20 ≤ (splitHalves (numericSeries series)).2.length)
    ∧ (∀ g : List ℚ, isNormal o g = true ↔
        (8 ≤ g.length ∧
          ((g.length < 5000 ∧ ∃ st p,
              o.shapiro (o.sample (min g.length 5000) g) = Except.ok (st, p) ∧ ALPHA < p)
           ∨ (5000 ≤ g.length ∧ ∃ st p,
              o.normaltest (o.sample 5000 g) = Except.ok (st, p) ∧ ALPHA < p))))
    ∧ ((isNormal o (splitHalves (numericSeries series)).1 &&
          isNormal o (splitHalves (numericSeries series)).2) = true →
        (check_mean_comparison o col series).value =
          round6 (o.ttest_ind_welch (splitHalves (numericSeries series)).1
            (splitHalves (numericSeries series)).2).2
        ∧ alistGet? (check_mean_comparison o col series).metadata "test" =
            some "Welch t-test (paramétrico)")
    ∧ ((isNormal o (splitHalves (numericSeries series)).1 &&
          isNormal o (splitHalves (numericSeries series)).2) = false →
        (check_mean_comparison o col series).value =
          round6 (o.mannwhitneyu_two_sided (splitHalves (numericSeries series)).1
            (splitHalves (numericSeries series)).2).2
        ∧ alistGet? (check_mean_comparison o col series).metadata "test" =
            some "Mann-Whitney U (no paramétrico)") := by
  have hnot : ¬ (numericSeries series).length < MIN_SAMPLE * 2 := by
    simp only [MIN_SAMPLE]
    omega
  refine ⟨?_, fun g => isNormal_iff o g, ?_, ?_⟩
  · unfold splitHalves
    rw [List.length_take, List.length_drop]
    omega
  · intro hc
    unfold check_mean_comparison
    rw [if_neg hnot]
    dsimp only
    rw [hc]
    simp [alistGet?]
  · intro hc
    unfold check_mean_comparison
    rw [if_neg hnot]
    dsimp only
    rw [hc]
    simp [alistGet?]


theorem numericSeries_replicate_some (n : ℕ) (a : ℚ) :
    numericSeries (List.replicate n (some a)) = List.replicate n a := by
  induction n with
  | zero => rfl
  | succ k ih =>
    simp only [List.replicate_succ, numericSeries, List.filterMap_cons, id] at ih ⊢
    rw [ih]

theorem listMean_replicate (n : ℕ) (hn : n ≠ 0) (a : ℚ) :
    listMean (List.replicate n a) = a := by
  have hn0 : ((n:ℚ)) ≠ 0 := by
    exact_mod_cast hn
  simp only [listMean, List.sum_replicate, List.length_replicate, nsmul_eq_mul]
  field_simp

theorem c2series_halves :
    (splitHalves (numericSeries c2series)).1 = List.replicate 50 (50:ℚ) ∧
    (splitHalves (numericSeries c2series)).2 = List.replicate 50 (100:ℚ) ∧
    (numericSeries c2series).length = 100 := by
  have hnum : numericSeries c2series =
      List.replicate 50 (50:ℚ) ++ List.replicate 50 (100:ℚ) := by
    simp only [c2series, numericSeries, List.filterMap_append]
    rw [← numericSeries, ← numericSeries, numericSeries_replicate_some,
        numericSeries_replicate_some]
  have hlen : (numericSeries c2series).length = 100 := by
    rw [hnum]
    simp
  refine ⟨?_, ?_, hlen⟩
  · rw [splitHalves, hlen, hnum]
    show (List.replicate 50 (50:ℚ) ++ List.replicate 50 (100:ℚ)).take 50 = _
    simp
  · rw [splitHalves, hlen, hnum]
    show (List.replicate 50 (50:ℚ) ++ List.replicate 50 (100:ℚ)).drop 50 = _
    simp


/-- C2: whenever the mean-shift check actually runs a test (at least 40
cleaned values), its severity is HIGH iff `p < 0.05` and the relative
mean difference exceeds 20%, MEDIUM iff `p < 0.05` without that margin,
and PASS otherwise (with `passed = False` exactly when `p < 0.05`); and
on the column `[50]*50 + [100]*50`, whose relative difference is 100%,
any routed test with `p < 0.05` yields `passed = False` with severity
HIGH. -/
theorem mean_shift_severity_rule :
    (∀ (o : StatsOracles) (col : String) (series : List (Option ℚ)),
      40 ≤ (numericSeries series).length →
      (let h1 := (splitHalves (numericSeries series)).1
       let h2 := (splitHalves (numericSeries series)).2
       let p := (if isNormal o h1 && isNormal o h2 then o.ttest_ind_welch h1 h2
                 else o.mannwhitneyu_two_sided h1 h2).2
       let diff := if listMean h1 ≠ 0 then |listMean h1 - listMean h2| / listMean h1 * 100 else 0
       let r := check_mean_comparison o col series
       ((r.severity = "HIGH") ↔ (p < ALPHA ∧ 20 < diff))
       ∧ ((r.severity = "MEDIUM") ↔ (p < ALPHA ∧ ¬ 20 < diff))
       ∧ ((r.severity = "PASS") ↔ ¬ p < ALPHA)
       ∧ ((r.passed = false) ↔ p < ALPHA)))
    ∧ (∀ o : StatsOracles,
        (let h1 := (splitHalves (numericSeries c2series)).1
         let h2 := (splitHalves (numericSeries c2series)).2
         let p := (if isNormal o h1 && isNormal o h2 then o.ttest_ind_welch h1 h2
                   else o.mannwhitneyu_two_sided h1 h2).2
         p < ALPHA →
         (check_mean_comparison o "col" c2series).passed = false
         ∧ (check_mean_comparison o "col" c2series).severity = "HIGH"
         ∧ (if listMean h1 ≠ 0 then |listMean h1 - listMean h2| / listMean h1 * 100 else 0)
             = 100)) := by
  have main : ∀ (o : StatsOracles) (col : String) (series : List (Option ℚ)),
      40 ≤ (numericSeries series).length →
      (let h1 := (splitHalves (numericSeries series)).1
       let h2 := (splitHalves (numericSeries series)).2
       let p := (if isNormal o h1 && isNormal o h2 then o.ttest_ind_welch h1 h2
                 else o.mannwhitneyu_two_sided h1 h2).2
       let diff := if listMean h1 ≠ 0 then |listMean h1 - listMean h2| / listMean h1 * 100 else 0
       let r := check_mean_comparison o col series
       ((r.severity = "HIGH") ↔ (p < ALPHA ∧ 20 < diff))
       ∧ ((r.severity = "MEDIUM") ↔ (p < ALPHA ∧ ¬ 20 < diff))
       ∧ ((r.severity = "PASS") ↔ ¬ p < ALPHA)
       ∧ ((r.passed = false) ↔ p < ALPHA)) := by
    intro o col series hlen
    have hnot : ¬ (numericSeries series).length < MIN_SAMPLE * 2 := by
      simp only [MIN_SAMPLE]
      omega
    dsimp only
    unfold check_mean_comparison
    rw [if_neg hnot]
    dsimp only
    set m1 := listMean (splitHalves (numericSeries series)).1 with hm1
    set m2 := listMean (splitHalves (numericSeries series)).2 with hm2
    set d := (if m1 ≠ 0 then |m1 - m2| / m1 * 100 else 0) with hd0
    by_cases hc : (isNormal o (splitHalves (numericSeries series)).1 &&
        isNormal o (splitHalves (numericSeries series)).2) = true
    · rw [hc]
      simp only [if_true]
      by_cases hp : (o.ttest_ind_welch (splitHalves (numericSeries series)).1
          (splitHalves (numericSeries series)).2).2 < ALPHA
      · by_cases hd : (20:ℚ) < d
        · simp [hp, hd]
        · simp [hp, hd]
      · simp [hp]
    · rw [Bool.not_eq_true] at hc
      rw [hc]
      simp only [Bool.false_eq_true, if_false]
      by_cases hp : (o.mannwhitneyu_two_sided (splitHalves (numericSeries series)).1
          (splitHalves (numericSeries series)).2).2 < ALPHA
      · by_cases hd : (20:ℚ) < d
        · simp [hp, hd]
        · simp [hp, hd]
      · simp [hp]
  refine ⟨main, ?_⟩
  intro o
  dsimp only
  intro hp
  obtain ⟨e1, e2, elen⟩ := c2series_halves
  have hm1 : listMean (splitHalves (numericSeries c2series)).1 = 50 := by
    rw [e1, listMean_replicate 50 (by norm_num) 50]
  have hm2 : listMean (splitHalves (numericSeries c2series)).2 = 100 := by
    rw [e2, listMean_replicate 50 (by norm_num) 100]
  have hdiff : (if listMean (splitHalves (numericSeries c2series)).1 ≠ 0 then
      |listMean (splitHalves (numericSeries c2series)).1 -
        listMean (splitHalves (numericSeries c2series)).2| /
        listMean (splitHalves (numericSeries c2series)).1 * 100 else 0) = 100 := by
    rw [hm1, hm2]
    norm_num
  have hlen : 40 ≤ (numericSeries c2series).length := by
    rw [elen]
    norm_num
  obtain ⟨hHIGH, -, -, hpassed⟩ := main o "col" c2series hlen
  refine ⟨hpassed.mpr hp, hHIGH.mpr ⟨hp, ?_⟩, hdiff⟩
  rw [hdiff]
  norm_num


/-- Witness for C1 at a concrete 40-value column. -/
theorem mean_shift_gate_and_routing_witness :
    40 ≤ (numericSeries (List.replicate 40 (some (1:ℚ)))).length ∧
    (20 ≤ (splitHalves (numericSeries (List.replicate 40 (some (1:ℚ))))).1.length ∧
     20 ≤ (splitHalves (numericSeries (List.replicate 40 (some (1:ℚ))))).2.length) := by
  have hlen : 40 ≤ (numericSeries (List.replicate 40 (some (1:ℚ)))).length := by
    rw [numericSeries_replicate_some]
    simp
  exact ⟨hlen, (mean_shift_gate_and_routing trivialStatsOracles "c" _ hlen).1⟩

/-- Witness for C2 on the concrete `[50]*50 + [100]*50` column: the
trivial oracle returns `p = 0 < 0.05`, so the check fails with HIGH. -/
theorem mean_shift_severity_rule_witness :
    (check_mean_comparison trivialStatsOracles "col" c2series).passed = false
    ∧ (check_mean_comparison trivialStatsOracles "col" c2series).severity = "HIGH" := by
  have hp : (if isNormal trivialStatsOracles (splitHalves (numericSeries c2series)).1 &&
        isNormal trivialStatsOracles (splitHalves (numericSeries c2series)).2 then
        trivialStatsOracles.ttest_ind_welch (splitHalves (numericSeries c2series)).1
          (splitHalves (numericSeries c2series)).2
      else trivialStatsOracles.mannwhitneyu_two_sided (splitHalves (numericSeries c2series)).1
          (splitHalves (numericSeries c2series)).2).2 < ALPHA := by
    have : ALPHA = 5/100 := rfl
    split <;> simp [trivialStatsOracles, this]
  obtain ⟨h1, h2, -⟩ := (mean_shift_severity_rule.2 trivialStatsOracles) hp
  exact ⟨h1, h2⟩


/-- C9: every hypothesis check with a minimum-sample gate answers
insufficient data with an explicit PASS record instead of an error or a
test run: the two-group checks (mean shift, paired Wilcoxon, variance
shift) below 40 total cleaned values, and the one-sample checks
(Anderson–Darling, Lilliefors, KS goodness-of-fit, ADF stationarity,
Kruskal–Wallis) below 20 cleaned values. -/
theorem hypothesis_checks_insufficient_data
    (o : StatsOracles) (col : String) (series : List (Option ℚ)) (df : KruskalDF) :
    ((numericSeries series).length < 40 →
      check_mean_comparison o col series =
        { check_id := "MEAN_SHIFT", column := col, passed := true, severity := "PASS",
          value := 0, threshold := ALPHA,
          message := "Datos insuficientes para comparación de medias" })
    ∧ ((numericSeries series).length < 40 →
      check_wilcoxon_paired o col series =
        { check_id := "WILCOXON_PAIRED", column := col, passed := true, severity := "PASS",
          value := 0, threshold := ALPHA,
          message := "Datos insuficientes para Wilcoxon pareado" })
    ∧ ((numericSeries series).length < 40 →
      check_variance_comparison o col series =
        { check_id := "VARIANCE_SHIFT", column := col, passed := true, severity := "PASS",
          value := 0, threshold := ALPHA,
          message := "Datos insuficientes para comparación de varianzas" })
    ∧ ((numericSeries series).length < 20 →
      check_normality_anderson o col series =
        { check_id := "NORMALITY_ANDERSON", column := col, passed := true, severity := "PASS",
          value := 0, threshold := 0,
          message := "Datos insuficientes para Anderson-Darling" })
    ∧ ((numericSeries series).length < 20 →
      check_normality_lilliefors o col series =
        { check_id := "NORMALITY_LILLIEFORS", column := col, passed := true, severity := "PASS",
          value := 0, threshold := ALPHA,
          message := "Datos insuficientes para Lilliefors" })
    ∧ ((numericSeries series).length < 20 →
      check_ks_goodness_of_fit o col series =
        { check_id := "KS_GOODNESS_FIT", column := col, passed := true, severity := "PASS",
          value := 0, threshold := ALPHA,
          message := "Datos insuficientes para KS goodness-of-fit" })
    ∧ ((numericSeries series).length < 20 →
      check_stationarity_adf o col series =
        { check_id := "ADF_STATIONARITY", column := col, passed := true, severity := "PASS",
          value := 0, threshold := ALPHA,
          message := "Datos insuficientes para test ADF" })
    ∧ ((numericSeries series).length < 20 →
      check_kruskal_wallis o col series (some df) =
        { check_id := "KRUSKAL_WALLIS", column := col, passed := true, severity := "PASS",
          value := 0, threshold := ALPHA,
          message := "Datos insuficientes" }) := by
  refine ⟨?_, ?_, ?_, ?_, ?_, ?_, ?_, ?_⟩
  · intro h
    unfold check_mean_comparison
    rw [if_pos (by simp only [MIN_SAMPLE]; omega)]
  · intro h
    unfold check_wilcoxon_paired
    rw [if_pos (by simp only [MIN_SAMPLE]; omega)]
  · intro h
    unfold check_variance_comparison
    rw [if_pos (by simp only [MIN_SAMPLE]; omega)]
  · intro h
    unfold check_normality_anderson
    rw [if_pos (by simp only [MIN_SAMPLE]; omega)]
  · intro h
    unfold check_normality_lilliefors
    rw [if_pos (by simp only [MIN_SAMPLE]; omega)]
  · intro h
    unfold check_ks_goodness_of_fit
    rw [if_pos (by simp only [MIN_SAMPLE]; omega)]
  · intro h
    unfold check_stationarity_adf
    rw [if_pos (by omega)]
  · intro h
    unfold check_kruskal_wallis
    dsimp only
    rw [if_pos (by simp only [MIN_SAMPLE]; omega)]

/-- Witness for C9 at a concrete 10-value column. -/
theorem hypothesis_checks_insufficient_data_witness :
    ((numericSeries (List.replicate 10 (some (1:ℚ)))).length < 40
      ∧ (numericSeries (List.replicate 10 (some (1:ℚ)))).length < 20)
    ∧ check_mean_comparison trivialStatsOracles "c" (List.replicate 10 (some (1:ℚ))) =
        { check_id := "MEAN_SHIFT", column := "c", passed := true, severity := "PASS",
          value := 0, threshold := ALPHA,
          message := "Datos insuficientes para comparación de medias" }
    ∧ check_stationarity_adf trivialStatsOracles "c" (List.replicate 10 (some (1:ℚ))) =
        { check_id := "ADF_STATIONARITY", column := "c", passed := true, severity := "PASS",
          value := 0, threshold := ALPHA,
          message := "Datos insuficientes para test ADF" } := by
  have h40 : (numericSeries (List.replicate 10 (some (1:ℚ)))).length < 40 := by
    rw [numericSeries_replicate_some]
    simp
  have h20 : (numericSeries (List.replicate 10 (some (1:ℚ)))).length < 20 := by
    rw [numericSeries_replicate_some]
    simp
  obtain ⟨hmean, -, -, -, -, -, hadf, -⟩ :=
    hypothesis_checks_insufficient_data trivialStatsOracles "c"
      (List.replicate 10 (some (1:ℚ))) ⟨[], fun _ => []⟩
  exact ⟨⟨h40, h20⟩, hmean h40, hadf h20⟩


theorem round1_bounds (x : ℚ) (h0 : 0 ≤ x) (h100 : x ≤ 100) :
    0 ≤ round1 x ∧ round1 x ≤ 100 := by
  unfold round1
  have hl : (10*x : ℚ) - 1/2 < ((round (10*x) : ℤ) : ℚ) := sub_half_lt_round _
  have hu : (((round (10*x) : ℤ)) : ℚ) ≤ 10*x + 1/2 := round_le_add_half _
  constructor
  · have h1 : (-1 : ℚ) < ((round (10*x) : ℤ) : ℚ) := by linarith
    have h2 : (-1 : ℤ) < round (10*x) := by exact_mod_cast h1
    have h3 : (0:ℚ) ≤ ((round (10*x) : ℤ) : ℚ) := by
      have : (0:ℤ) ≤ round (10*x) := by omega
      exact_mod_cast this
    linarith
  · have h1 : ((round (10*x) : ℤ) : ℚ) < 1001 := by linarith
    have h2 : round (10*x) < (1001:ℤ) := by exact_mod_cast h1
    have h3 : ((round (10*x) : ℤ) : ℚ) ≤ 1000 := by
      have : round (10*x) ≤ (1000:ℤ) := by omega
      exact_mod_cast this
    linarith

theorem load_ok_nonneg (raw : RawConfig) (c : Config)
    (h : ConfigLoader.load raw = Except.ok c) :
    (∀ kv ∈ c.scoring, (0:ℚ) ≤ kv.2) ∧ (∀ kv ∈ c.column_weights, (0:ℚ) ≤ kv.2) := by
  unfold ConfigLoader.load at h
  by_cases he : (validateConfig raw).isEmpty
  · rw [if_pos he] at h
    injection h with h
    subst h
    rw [List.isEmpty_iff] at he
    unfold validateConfig at he
    dsimp only at he
    rw [List.append_eq_nil, List.append_eq_nil, List.append_eq_nil,
        List.append_eq_nil, List.append_eq_nil] at he
    obtain ⟨⟨⟨⟨⟨-, -⟩, hsc⟩, hw⟩, -⟩, -⟩ := he
    constructor
    · intro kv hkv
      dsimp only at hkv
      cases hsraw : raw.scoring with
      | none => rw [hsraw] at hkv; simp at hkv
      | some sc =>
        rw [hsraw] at hsc hkv
        simp only [Option.getD_some] at hkv
        have := (List.flatMap_eq_nil_iff.mp hsc) kv hkv
        rw [List.append_eq_nil] at this
        by_contra hneg
        push_neg at hneg
        rw [if_pos hneg] at this
        exact List.noConfusion this.2
    · intro kv hkv
      dsimp only at hkv
      cases hwraw : raw.column_weights with
      | none => rw [hwraw] at hkv; simp at hkv
      | some ws =>
        rw [hwraw] at hw hkv
        simp only [Option.getD_some] at hkv
        have := (List.flatMap_eq_nil_iff.mp hw) kv hkv
        by_contra hneg
        push_neg at hneg
        rw [if_pos hneg] at this
        exact List.noConfusion this
  · rw [if_neg he] at h
    exact Except.noConfusion h


theorem alistGet?_some_mem {α : Type} (m : List (String × α)) (k : String) (v : α)
    (h : alistGet? m k = some v) : (k, v) ∈ m := by
  unfold alistGet? at h
  cases hf : m.find? (fun kv => kv.1 = k) with
  | none => rw [hf] at h; exact Option.noConfusion h
  | some kv =>
    rw [hf] at h
    simp only [Option.map_some'] at h
    have hm := List.mem_of_find?_eq_some hf
    have hp := List.find?_some hf
    simp only [decide_eq_true_eq] at hp
    injection h with h2
    have : kv = (k, v) := Prod.ext hp h2
    rw [← this]
    exact hm

theorem deductionFor_nonneg (config : Option Config)
    (hs : ∀ kv ∈ scoringOf config, (0:ℚ) ≤ kv.2) (sev : String) :
    0 ≤ deductionFor config sev := by
  unfold deductionFor alistGetD
  cases hf : alistGet? (deductionsMap config) sev with
  | none => simp
  | some v =>
    simp only [Option.getD_some]
    have hmem := alistGet?_some_mem _ _ _ hf
    unfold deductionsMap at hmem
    obtain ⟨kv0, hkv0, heq⟩ := List.mem_map.mp hmem
    have hdef : (0:ℚ) ≤ kv0.2 := by
      simp only [SEVERITY_DEDUCTIONS, List.mem_cons, List.not_mem_nil, or_false] at hkv0
      rcases hkv0 with h|h|h|h|h|h <;> rw [h] <;> norm_num
    cases config with
    | none =>
      simp only at heq
      have : kv0.2 = v := congrArg Prod.snd heq
      rw [← this]
      exact hdef
    | some c =>
      simp only at heq
      cases hsc : alistGet? c.scoring kv0.1 with
      | none =>
        rw [hsc] at heq
        have : kv0.2 = v := congrArg Prod.snd heq
        rw [← this]
        exact hdef
      | some w =>
        rw [hsc] at heq
        have hv : w = v := congrArg Prod.snd heq
        have := hs _ (alistGet?_some_mem _ _ _ hsc)
        simp only [scoringOf] at this ⊢
        rw [← hv]
        exact this

theorem datasetWeight_nonneg (config : Option Config) (null_pcts : List (String × ℚ))
    (col : String)
    (hw : ∀ kv ∈ columnWeightsOf config, (0:ℚ) ≤ kv.2)
    (hnp : ∀ kv ∈ null_pcts, (0:ℚ) ≤ kv.2) :
    0 ≤ datasetWeight config null_pcts col := by
  unfold datasetWeight
  cases hf : alistGet? (columnWeightsOf config) col with
  | some w =>
    exact hw _ (alistGet?_some_mem _ _ _ hf)
  | none =>
    have hp : (0:ℚ) ≤ alistGetD null_pcts col 0 := by
      unfold alistGetD
      cases hg : alistGet? null_pcts col with
      | none => simp
      | some p =>
        simp only [Option.getD_some]
        exact hnp _ (alistGet?_some_mem _ _ _ hg)
    positivity


theorem columnRawScore_bounds (config : Option Config) (results : List CheckResult)
    (col : String) (hs : ∀ kv ∈ scoringOf config, (0:ℚ) ≤ kv.2) :
    0 ≤ columnRawScore config results col ∧ columnRawScore config results col ≤ 100 := by
  unfold columnRawScore
  refine ⟨le_max_left 0 _, max_le (by norm_num) ?_⟩
  have hsum : 0 ≤ (((colResults results col).filter (fun r => !r.passed)).map
      (fun r => deductionFor config r.severity)).sum := by
    apply List.sum_nonneg
    intro x hx
    obtain ⟨r, -, hr⟩ := List.mem_map.mp hx
    rw [← hr]
    exact deductionFor_nonneg config hs r.severity
  linarith

theorem columnScoreEntry_score_bounds (config : Option Config) (results : List CheckResult)
    (col : String) (hs : ∀ kv ∈ scoringOf config, (0:ℚ) ≤ kv.2) :
    0 ≤ (columnScoreEntry config results col).score ∧
      (columnScoreEntry config results col).score ≤ 100 := by
  unfold columnScoreEntry
  dsimp only
  exact round1_bounds _ (columnRawScore_bounds config results col hs).1
    (columnRawScore_bounds config results col hs).2

theorem datasetRawScore_bounds (config : Option Config) (results : List CheckResult)
    (null_pcts : List (String × ℚ))
    (hs : ∀ kv ∈ scoringOf config, (0:ℚ) ≤ kv.2)
    (hw : ∀ kv ∈ columnWeightsOf config, (0:ℚ) ≤ kv.2)
    (hnp : ∀ kv ∈ null_pcts, (0:ℚ) ≤ kv.2) :
    0 ≤ datasetRawScore config results null_pcts ∧
      datasetRawScore config results null_pcts ≤ 100 := by
  unfold datasetRawScore
  split_ifs with htw
  · have hws0 : 0 ≤ weightedSum config results null_pcts := by
      unfold weightedSum
      apply List.sum_nonneg
      intro x hx
      obtain ⟨c, -, hc⟩ := List.mem_map.mp hx
      rw [← hc]
      exact mul_nonneg (columnScoreEntry_score_bounds config results c hs).1
        (datasetWeight_nonneg config null_pcts c hw hnp)
    have hwsle : weightedSum config results null_pcts ≤
        100 * totalWeight config results null_pcts := by
      unfold weightedSum totalWeight
      rw [← List.sum_map_mul_left]
      apply List.sum_le_sum
      intro c hc
      exact mul_le_mul_of_nonneg_right (columnScoreEntry_score_bounds config results c hs).2
        (datasetWeight_nonneg config null_pcts c hw hnp)
    constructor
    · exact div_nonneg hws0 (le_of_lt htw)
    · rw [div_le_iff₀ htw]
      linarith
  · norm_num

theorem round1_zero : round1 0 = 0 := by
  unfold round1
  norm_num

/-- C4: per-column scores and the dataset score always lie in `[0, 100]`
for every configuration the loader accepts (part (i): a successfully
loaded configuration has non-negative scoring deductions and column
weights; part (ii): under those constraints — plus non-negative null
fractions — all scores are bounded, and an empty result list or a zero
total weight yields dataset score `0.0`, not an error). -/
theorem scoring_bounds :
    (∀ (raw : RawConfig) (c : Config), ConfigLoader.load raw = Except.ok c →
       (∀ kv ∈ c.scoring, (0:ℚ) ≤ kv.2) ∧ (∀ kv ∈ c.column_weights, (0:ℚ) ≤ kv.2))
    ∧ (∀ (config : Option Config) (results : List CheckResult)
         (null_pcts : List (String × ℚ)),
        (∀ kv ∈ scoringOf config, (0:ℚ) ≤ kv.2) →
        (∀ kv ∈ columnWeightsOf config, (0:ℚ) ≤ kv.2) →
        (∀ kv ∈ null_pcts, (0:ℚ) ≤ kv.2) →
        (∀ e ∈ (ScoringSystem.calculate config results null_pcts).column_scores,
           0 ≤ e.2.score ∧ e.2.score ≤ 100)
        ∧ (0 ≤ (ScoringSystem.calculate config results null_pcts).dataset_score
           ∧ (ScoringSystem.calculate config results null_pcts).dataset_score ≤ 100)
        ∧ (results = [] →
            (ScoringSystem.calculate config results null_pcts).dataset_score = 0)
        ∧ (totalWeight config results null_pcts = 0 →
            (ScoringSystem.calculate config results null_pcts).dataset_score = 0)) := by
  refine ⟨load_ok_nonneg, ?_⟩
  intro config results null_pcts hs hw hnp
  refine ⟨?_, ?_, ?_, ?_⟩
  · intro e he
    unfold ScoringSystem.calculate at he
    dsimp only at he
    obtain ⟨c, -, hc⟩ := List.mem_map.mp he
    rw [← hc]
    exact columnScoreEntry_score_bounds config results c hs
  · unfold ScoringSystem.calculate
    dsimp only
    exact round1_bounds _ (datasetRawScore_bounds config results null_pcts hs hw hnp).1
      (datasetRawScore_bounds config results null_pcts hs hw hnp).2
  · intro hempty
    subst hempty
    unfold ScoringSystem.calculate
    dsimp only
    have : datasetRawScore config [] null_pcts = 0 := by
      unfold datasetRawScore totalWeight includedColumns columnsOf
      simp
    rw [this, round1_zero]
  · intro htw
    unfold ScoringSystem.calculate
    dsimp only
    have : datasetRawScore config results null_pcts = 0 := by
      unfold datasetRawScore
      rw [if_neg]
      rw [htw]
      exact lt_irrefl 0
    rw [this, round1_zero]


/-- Witness for C4: the default configuration and an empty run. -/
theorem scoring_bounds_witness :
    (∀ kv ∈ scoringOf none, (0:ℚ) ≤ kv.2)
    ∧ (0 ≤ (ScoringSystem.calculate none [] []).dataset_score
       ∧ (ScoringSystem.calculate none [] []).dataset_score ≤ 100)
    ∧ (ScoringSystem.calculate none [] []).dataset_score = 0 := by
  have hs : ∀ kv ∈ scoringOf none, (0:ℚ) ≤ kv.2 := by simp [scoringOf]
  have hw : ∀ kv ∈ columnWeightsOf none, (0:ℚ) ≤ kv.2 := by simp [columnWeightsOf]
  have hnp : ∀ kv ∈ ([] : List (String × ℚ)), (0:ℚ) ≤ kv.2 := by simp
  obtain ⟨-, hb, hz, -⟩ := scoring_bounds.2 none [] [] hs hw hnp
  exact ⟨hs, hb, hz rfl⟩


theorem c5_scoreA : (columnScoreEntry none c5results "A").score = 100 := by
  have hcol : colResults c5results "A" = [c5rA] := by decide
  unfold columnScoreEntry columnRawScore
  dsimp only
  rw [hcol]
  have hfil : [c5rA].filter (fun r => !r.passed) = [] := by decide
  rw [hfil]
  simp only [List.map_nil, List.sum_nil]
  rw [show ((100:ℚ) - 0) = 100 by norm_num, max_eq_right (by norm_num : (0:ℚ) ≤ 100)]
  unfold round1
  rw [show ((10:ℚ) * 100) = ((1000:ℤ):ℚ) by norm_num, round_intCast]
  norm_num

theorem c5_scoreB : (columnScoreEntry none c5results "B").score = 95 := by
  have hcol : colResults c5results "B" = [c5rB] := by decide
  unfold columnScoreEntry columnRawScore
  dsimp only
  rw [hcol]
  have hfil : [c5rB].filter (fun r => !r.passed) = [c5rB] := by decide
  rw [hfil]
  have hded : deductionFor none c5rB.severity = 5 := by
    unfold deductionFor deductionsMap alistGetD alistGet? SEVERITY_DEDUCTIONS c5rB
    simp
  simp only [List.map_cons, List.map_nil, List.sum_cons, List.sum_nil, hded]
  rw [show ((100:ℚ) - (5 + 0)) = 95 by norm_num, max_eq_right (by norm_num : (0:ℚ) ≤ 95)]
  unfold round1
  rw [show ((10:ℚ) * 95) = ((950:ℤ):ℚ) by norm_num, round_intCast]
  norm_num

theorem c5_included : includedColumns c5results = ["A", "B"] := by decide

theorem c5_npA : alistGetD c5nullpcts "A" 0 = 0 := rfl

theorem c5_npB : alistGetD c5nullpcts "B" 0 = 1 := rfl

theorem c5_weightA : datasetWeight none c5nullpcts "A" = 1 := by
  unfold datasetWeight columnWeightsOf
  rw [show alistGet? ([] : List (String × ℚ)) "A" = none from rfl, c5_npA]
  norm_num

theorem c5_weightB : datasetWeight none c5nullpcts "B" = 1/2 := by
  unfold datasetWeight columnWeightsOf
  rw [show alistGet? ([] : List (String × ℚ)) "B" = none from rfl, c5_npB]
  norm_num

theorem c5_raw : datasetRawScore none c5results c5nullpcts = 295/3 := by
  unfold datasetRawScore totalWeight weightedSum
  rw [c5_included]
  simp only [List.map_cons, List.map_nil, List.sum_cons, List.sum_nil,
    c5_weightA, c5_weightB, c5_scoreA, c5_scoreB]
  norm_num

/-- C5 counterexample: with no configured column weights, two columns of
scores 100 and 95 and null fractions 0 and 1 give the exact weighted mean
`295/3 = 98.333…`, but the aggregator reports the rounded value `98.3`,
so the reported dataset score is not equal to the weighted mean of the
per-column scores. -/
theorem dataset_score_not_exact_mean :
    (ScoringSystem.calculate none c5results c5nullpcts).dataset_score ≠
      specDatasetMean none c5results c5nullpcts := by
  have hspec : specDatasetMean none c5results c5nullpcts = 295/3 := by
    unfold specDatasetMean
    rw [c5_included]
    have wA : (1:ℚ) / (1 + alistGetD c5nullpcts "A" 0) = 1 := by
      rw [c5_npA]
      norm_num
    have wB : (1:ℚ) / (1 + alistGetD c5nullpcts "B" 0) = 1/2 := by
      rw [c5_npB]
      norm_num
    simp only [List.map_cons, List.map_nil, List.sum_cons, List.sum_nil,
      wA, wB, c5_scoreA, c5_scoreB]
    norm_num
  have hds : (ScoringSystem.calculate none c5results c5nullpcts).dataset_score = 983/10 := by
    unfold ScoringSystem.calculate
    dsimp only
    rw [c5_raw]
    unfold round1
    rw [show ((10:ℚ) * (295/3)) = 2950/3 by norm_num]
    rw [show round ((2950:ℚ)/3) = 983 by rw [round_eq]; norm_num]
    norm_num
  rw [hds, hspec]
  norm_num


theorem round1_idem (x : ℚ) : round1 (round1 x) = round1 x := by
  unfold round1
  rw [show (10:ℚ) * (((round (10 * x) : ℤ):ℚ) / 10) = ((round (10 * x) : ℤ):ℚ) by ring]
  rw [round_intCast]

theorem datasetWeight_default (config : Option Config) (null_pcts : List (String × ℚ))
    (col : String) (hw : columnWeightsOf config = []) :
    datasetWeight config null_pcts col = 1 / (1 + alistGetD null_pcts col 0) := by
  unfold datasetWeight
  rw [hw]
  rfl

/-- C5 (amended): when no column weights are configured, the reported
dataset score equals the weighted mean of the stored per-column scores
with default weights `1/(1+null_fraction)` (excluding `"__dataset__"`),
rounded to one decimal; in particular, when all included columns share
one common stored score, the dataset score equals that common score
exactly, regardless of the null fractions. -/
theorem dataset_score_weighted_mean
    (config : Option Config) (results : List CheckResult)
    (null_pcts : List (String × ℚ))
    (hw : columnWeightsOf config = [])
    (hnp : ∀ kv ∈ null_pcts, (0:ℚ) ≤ kv.2) :
    (ScoringSystem.calculate config results null_pcts).dataset_score =
      round1 (specDatasetMean config results null_pcts)
    ∧ (∀ s : ℚ,
        (∀ c ∈ includedColumns results, (columnScoreEntry config results c).score = s) →
        includedColumns results ≠ [] →
        (ScoringSystem.calculate config results null_pcts).dataset_score = s) := by
  have hnn : ∀ c, (0:ℚ) ≤ alistGetD null_pcts c 0 := by
    intro c
    unfold alistGetD
    cases hg : alistGet? null_pcts c with
    | none => simp
    | some p =>
      simp only [Option.getD_some]
      exact hnp _ (alistGet?_some_mem _ _ _ hg)
  have hwpos : ∀ c, (0:ℚ) < datasetWeight config null_pcts c := by
    intro c
    rw [datasetWeight_default config null_pcts c hw]
    have := hnn c
    positivity
  have hws : weightedSum config results null_pcts =
      ((includedColumns results).map
        (fun c => (columnScoreEntry config results c).score *
          (1 / (1 + alistGetD null_pcts c 0)))).sum := by
    unfold weightedSum
    congr 1
    apply List.map_congr_left
    intro c _
    rw [datasetWeight_default config null_pcts c hw]
  have htw : totalWeight config results null_pcts =
      ((includedColumns results).map (fun c => 1 / (1 + alistGetD null_pcts c 0))).sum := by
    unfold totalWeight
    congr 1
    apply List.map_congr_left
    intro c _
    rw [datasetWeight_default config null_pcts c hw]
  constructor
  · unfold ScoringSystem.calculate
    dsimp only
    congr 1
    unfold datasetRawScore specDatasetMean
    rw [hws, htw]
    split_ifs with hpos
    · rfl
    · rw [← htw] at hpos ⊢
      have h0 : totalWeight config results null_pcts = 0 := by
        have hge : 0 ≤ totalWeight config results null_pcts := by
          unfold totalWeight
          apply List.sum_nonneg
          intro x hx
          obtain ⟨c, -, hc⟩ := List.mem_map.mp hx
          rw [← hc]
          exact le_of_lt (hwpos c)
        linarith [lt_or_eq_of_le hge]
      rw [← hws, h0, div_zero]
  · intro s hall hne
    have htwpos : 0 < totalWeight config results null_pcts := by
      unfold totalWeight
      apply List.sum_pos
      · intro x hx
        obtain ⟨c, -, hc⟩ := List.mem_map.mp hx
        rw [← hc]
        exact hwpos c
      · simp only [ne_eq, List.map_eq_nil_iff]
        exact hne
    have hwsum : weightedSum config results null_pcts =
        s * totalWeight config results null_pcts := by
      unfold weightedSum totalWeight
      rw [← List.sum_map_mul_left]
      apply congrArg
      apply List.map_congr_left
      intro c hc
      rw [hall c hc]
    have hraw : datasetRawScore config results null_pcts = s := by
      unfold datasetRawScore
      rw [if_pos htwpos, hwsum, mul_div_assoc,
        div_self (ne_of_gt htwpos), mul_one]
    obtain ⟨c0, hc0⟩ := List.exists_mem_of_ne_nil _ hne
    have hs0 : s = round1 (columnRawScore config results c0) := by
      rw [← hall c0 hc0]
      rfl
    unfold ScoringSystem.calculate
    dsimp only
    rw [hraw, hs0, round1_idem]


theorem c5equal_score (col : String) (r : CheckResult)
    (hcol : colResults c5equalResults col = [r]) (hpass : r.passed = true) :
    (columnScoreEntry none c5equalResults col).score = 100 := by
  unfold columnScoreEntry columnRawScore
  dsimp only
  rw [hcol]
  have hfil : [r].filter (fun x => !x.passed) = [] := by
    simp [List.filter, hpass]
  rw [hfil]
  simp only [List.map_nil, List.sum_nil]
  rw [show ((100:ℚ) - 0) = 100 by norm_num, max_eq_right (by norm_num : (0:ℚ) ≤ 100)]
  unfold round1
  rw [show ((10:ℚ) * 100) = ((1000:ℤ):ℚ) by norm_num, round_intCast]
  norm_num

/-- Witness for C5 (amended): two columns with equal score 100 but null
fractions 0 and 1 still aggregate to dataset score 100. -/
theorem dataset_score_weighted_mean_witness :
    columnWeightsOf (none : Option Config) = [] ∧
    (ScoringSystem.calculate none c5equalResults c5nullpcts).dataset_score = 100 := by
  have hw : columnWeightsOf (none : Option Config) = [] := rfl
  have hnp : ∀ kv ∈ c5nullpcts, (0:ℚ) ≤ kv.2 := by
    intro kv hkv
    simp only [c5nullpcts, List.mem_cons, List.not_mem_nil, or_false] at hkv
    rcases hkv with h|h
    · rw [h]
    · rw [h]
      norm_num
  have hinc : includedColumns c5equalResults = ["A", "B"] := by decide
  refine ⟨hw, ?_⟩
  apply (dataset_score_weighted_mean none c5equalResults c5nullpcts hw hnp).2 100 ?_ ?_
  · intro c hc
    rw [hinc] at hc
    simp only [List.mem_cons, List.not_mem_nil, or_false] at hc
    rcases hc with h|h
    · subst h
      exact c5equal_score "A" c5rA (by decide) (by decide)
    · subst h
      exact c5equal_score "B" c5rBpass (by decide) (by decide)
  · rw [hinc]
    simp


theorem override_error_mem (raw : RawConfig) (cid sev : String)
    (hmem : (cid, sev) ∈ raw.severity_overrides.getD [])
    (hbad : sev ∉ VALID_SEVERITIES) :
    ("severity_overrides." ++ cid ++ ": severidad invalida") ∈ validateConfig raw := by
  cases hov : raw.severity_overrides with
  | none =>
    rw [hov] at hmem
    simp at hmem
  | some ov =>
    rw [hov] at hmem
    simp only [Option.getD_some] at hmem
    unfold validateConfig
    dsimp only
    rw [hov]
    dsimp only
    apply List.mem_append_left
    apply List.mem_append_left
    apply List.mem_append_left
    apply List.mem_append_left
    apply List.mem_append_right
    apply List.mem_flatMap.mpr
    refine ⟨(cid, sev), hmem, ?_⟩
    rw [if_neg hbad]
    simp

/-- C7: a configuration whose `severity_overrides` carries a value
outside the six enumerated severities (e.g. `"SUPER_CRITICAL"`) makes
`ConfigLoader.load` raise eagerly, and the audit pipeline — which loads
the configuration before the engine runs — returns that error without
producing any check result. -/
theorem invalid_severity_override_aborts
    {α : Type} (raw : RawConfig) (cid sev : String)
    (hmem : (cid, sev) ∈ raw.severity_overrides.getD [])
    (hbad : sev ∉ VALID_SEVERITIES)
    (registry : SemanticType → List (CheckDef α))
    (column_types : List (String × SemanticType)) (input : String → α)
    (datasetGroups : List (String × (Unit → Except PyExc (List CheckResult)))) :
    (∃ e, ConfigLoader.load raw = Except.error e)
    ∧ (∃ e, auditRun raw registry column_types input datasetGroups = Except.error e)
    ∧ (∀ rs, auditRun raw registry column_types input datasetGroups ≠ Except.ok rs) := by
  have herr : validateConfig raw ≠ [] :=
    List.ne_nil_of_mem (override_error_mem raw cid sev hmem hbad)
  have hload : ConfigLoader.load raw =
      Except.error (String.intercalate "; " (validateConfig raw)) := by
    unfold ConfigLoader.load
    rw [if_neg]
    simpa [List.isEmpty_iff] using herr
  have haudit : auditRun raw registry column_types input datasetGroups =
      Except.error (String.intercalate "; " (validateConfig raw)) := by
    unfold auditRun
    rw [hload]
  refine ⟨⟨_, hload⟩, ⟨_, haudit⟩, ?_⟩
  intro rs hok
  rw [haudit] at hok
  exact Except.noConfusion hok

/-- Witness for C7 with the spec's example `"SUPER_CRITICAL"`. -/
theorem invalid_severity_override_aborts_witness :
    (("TREND_CHANGE", "SUPER_CRITICAL") ∈
        (RawConfig.mk none none (some [("TREND_CHANGE", "SUPER_CRITICAL")])
          none none none none).severity_overrides.getD []
      ∧ "SUPER_CRITICAL" ∉ VALID_SEVERITIES)
    ∧ (∃ e, ConfigLoader.load
        (RawConfig.mk none none (some [("TREND_CHANGE", "SUPER_CRITICAL")])
          none none none none) = Except.error e) := by
  have hmem : ("TREND_CHANGE", "SUPER_CRITICAL") ∈
      (RawConfig.mk none none (some [("TREND_CHANGE", "SUPER_CRITICAL")])
        none none none none).severity_overrides.getD [] := by decide
  have hbad : "SUPER_CRITICAL" ∉ VALID_SEVERITIES := by decide
  refine ⟨⟨hmem, hbad⟩, ?_⟩
  exact (invalid_severity_override_aborts (α := Unit)
    (RawConfig.mk none none (some [("TREND_CHANGE", "SUPER_CRITICAL")]) none none none none)
    "TREND_CHANGE" "SUPER_CRITICAL" hmem hbad (fun _ => []) [] (fun _ => ()) []).1


theorem applyOverride_none (cid : String) (r : CheckResult) :
    applyOverride none cid r = r := by
  unfold applyOverride ConfigLoader.getSeverityOverride
  split <;> rfl

theorem runChecksForColumn_spec {α : Type} (config : Option Config) (x : α) (col : String) :
    ∀ (checks : List (CheckDef α)) (dup : Bool),
      (runChecksForColumn config checks x col dup).1.length =
        (executedIdsForColumn config checks dup).1.length ∧
      (runChecksForColumn config checks x col dup).2 =
        (executedIdsForColumn config checks dup).2 := by
  intro checks
  induction checks with
  | nil => exact fun dup => ⟨rfl, rfl⟩
  | cons c rest ih =>
    intro dup
    by_cases h1 : (!(ConfigLoader.isCheckEnabled config c.check_id)) = true
    · unfold runChecksForColumn executedIdsForColumn
      rw [if_pos h1, if_pos h1]
      exact ih dup
    · by_cases h2 : (c.check_id = "DUPLICATE_ROWS" && dup) = true
      · unfold runChecksForColumn executedIdsForColumn
        rw [if_neg h1, if_neg h1, if_pos h2, if_pos h2]
        exact ih dup
      · unfold runChecksForColumn executedIdsForColumn
        rw [if_neg h1, if_neg h1, if_neg h2, if_neg h2]
        dsimp only
        refine ⟨?_, (ih _).2⟩
        simp only [List.length_cons]
        exact congrArg Nat.succ (ih _).1

theorem runColumns_spec {α : Type} (config : Option Config)
    (registry : SemanticType → List (CheckDef α)) (input : String → α) :
    ∀ (cols : List (String × SemanticType)) (dup : Bool),
      (runColumns config registry cols input dup).1.length =
        (executedIds config registry cols dup).1.length ∧
      (runColumns config registry cols input dup).2 =
        (executedIds config registry cols dup).2 := by
  intro cols
  induction cols with
  | nil => exact fun dup => ⟨rfl, rfl⟩
  | cons p rest ih =>
    obtain ⟨col, stype⟩ := p
    intro dup
    unfold runColumns executedIds
    obtain ⟨hl, hd⟩ := runChecksForColumn_spec config (input col) col (registry stype) dup
    dsimp only
    constructor
    · rw [List.length_append, List.length_append, hl, hd, (ih _).1]
    · rw [hd]
      exact (ih _).2


/-- C6: the executor never aborts on a raising check: (i) the per-column
phase returns exactly one record per executed (scheduled, enabled,
dedup-filtered) check; (ii) a raising body is converted by
`_safe_execute` into a synthetic passed/INFO record carrying the
exception class name and the 200-character-truncated message; (iii) in a
five-check run whose third check raises, `run_all` returns five records,
the third being that synthetic record. -/
theorem exception_isolated_run :
    (∀ (α : Type) (config : Option Config) (registry : SemanticType → List (CheckDef α))
       (column_types : List (String × SemanticType)) (input : String → α) (dup : Bool),
        (runColumns config registry column_types input dup).1.length =
          (executedIds config registry column_types dup).1.length)
    ∧ (∀ (α : Type) (f : CheckFun α) (x : α) (cid col : String) (e : PyExc),
        f x = Except.error e →
        safeExecute f x cid col =
          { check_id := cid, column := col, passed := true, severity := "INFO",
            value := 0, threshold := 0,
            message := "Error al ejecutar check: " ++ e.className ++ ": " ++ truncate200 e.msg,
            metadata := [("error", "True"), ("error_type", e.className)] })
    ∧ (∀ (r1 r2 r3 r4 : CheckResult) (e : PyExc),
        runAll none
          (fun _ => [⟨"CHK1", fun _ => Except.ok r1⟩, ⟨"CHK2", fun _ => Except.ok r2⟩,
            ⟨"CHK3", fun _ => Except.error e⟩, ⟨"CHK4", fun _ => Except.ok r3⟩,
            ⟨"CHK5", fun _ => Except.ok r4⟩])
          [("col", SemanticType.NUMERIC_CONTINUOUS)] (fun _ => ()) [] =
          [r1, r2,
           { check_id := "CHK3", column := "col", passed := true, severity := "INFO",
             value := 0, threshold := 0,
             message := "Error al ejecutar check: " ++ e.className ++ ": " ++ truncate200 e.msg,
             metadata := [("error", "True"), ("error_type", e.className)] },
           r3, r4]) := by
  refine ⟨?_, ?_, ?_⟩
  · intro α config registry column_types input dup
    exact (runColumns_spec config registry input column_types dup).1
  · intro α f x cid col e hf
    unfold safeExecute
    rw [hf]
  · intro r1 r2 r3 r4 e
    simp [runAll, runColumns, runChecksForColumn, runDatasetChecks, safeExecute,
      applyOverride_none, ConfigLoader.isCheckEnabled]


/-- Witness for C6: a concrete raising check among four passing ones. -/
theorem exception_isolated_run_witness :
    safeExecute (fun _ : Unit => Except.error (PyExc.mk "ValueError" "boom")) () "CHK3" "col" =
      { check_id := "CHK3", column := "col", passed := true, severity := "INFO",
        value := 0, threshold := 0,
        message := "Error al ejecutar check: " ++ "ValueError" ++ ": " ++ truncate200 "boom",
        metadata := [("error", "True"), ("error_type", "ValueError")] }
    ∧ runAll none
        (fun _ => [⟨"CHK1", fun _ => Except.ok c5rA⟩, ⟨"CHK2", fun _ => Except.ok c5rA⟩,
          ⟨"CHK3", fun _ => Except.error (PyExc.mk "ValueError" "boom")⟩,
          ⟨"CHK4", fun _ => Except.ok c5rA⟩, ⟨"CHK5", fun _ => Except.ok c5rA⟩])
        [("col", SemanticType.NUMERIC_CONTINUOUS)] (fun _ => ()) [] =
        [c5rA, c5rA,
         { check_id := "CHK3", column := "col", passed := true, severity := "INFO",
           value := 0, threshold := 0,
           message := "Error al ejecutar check: " ++ "ValueError" ++ ": " ++ truncate200 "boom",
           metadata := [("error", "True"), ("error_type", "ValueError")] },
         c5rA, c5rA] := by
  exact ⟨exception_isolated_run.2.1 Unit _ () "CHK3" "col" (PyExc.mk "ValueError" "boom") rfl,
    exception_isolated_run.2.2 c5rA c5rA c5rA c5rA (PyExc.mk "ValueError" "boom")⟩


theorem executedIdsForColumn_dup_inv {α : Type} (config : Option Config) :
    ∀ (checks : List (CheckDef α)) (dup : Bool),
      ((executedIdsForColumn config checks dup).1.count "DUPLICATE_ROWS" +
        (if dup then 1 else 0) ≤ 1)
      ∧ ((executedIdsForColumn config checks dup).2 = false →
          (executedIdsForColumn config checks dup).1.count "DUPLICATE_ROWS" = 0)
      ∧ (dup = true → (executedIdsForColumn config checks dup).2 = true) := by
  intro checks
  induction checks with
  | nil =>
    intro dup
    refine ⟨?_, fun _ => rfl, fun h => h⟩
    cases dup <;> simp [executedIdsForColumn]
  | cons c rest ih =>
    intro dup
    by_cases h1 : (!(ConfigLoader.isCheckEnabled config c.check_id)) = true
    · unfold executedIdsForColumn
      rw [if_pos h1]
      exact ih dup
    · by_cases h2 : (c.check_id = "DUPLICATE_ROWS" && dup) = true
      · unfold executedIdsForColumn
        rw [if_neg h1, if_pos h2]
        exact ih dup
      · unfold executedIdsForColumn
        rw [if_neg h1, if_neg h2]
        dsimp only
        by_cases hid : c.check_id = "DUPLICATE_ROWS"
        · have hdup : dup = false := by
            cases dup with
            | false => rfl
            | true => exact absurd (by rw [hid]; simp) h2
          subst hdup
          rw [if_pos hid]
          obtain ⟨ha, -, hc⟩ := ih true
          have ha0 : (executedIdsForColumn config rest true).1.count "DUPLICATE_ROWS" = 0 := by
            rw [if_pos rfl] at ha
            omega
          have hbeq : (c.check_id == "DUPLICATE_ROWS") = true := by
            rw [hid]
            exact beq_self_eq_true _
          refine ⟨?_, ?_, fun h => absurd h (by simp)⟩
          · rw [List.count_cons, ha0, hbeq]
            simp
          · intro hflag
            rw [hc rfl] at hflag
            exact absurd hflag (by simp)
        · rw [if_neg hid]
          obtain ⟨ha, hb, hc⟩ := ih dup
          have hbeq : (c.check_id == "DUPLICATE_ROWS") = false :=
            beq_eq_false_iff_ne.mpr hid
          refine ⟨?_, ?_, hc⟩
          · rw [List.count_cons, hbeq]
            simpa using ha
          · intro hflag
            rw [List.count_cons, hbeq]
            simpa using hb hflag

theorem executedIds_dup_inv {α : Type} (config : Option Config)
    (registry : SemanticType → List (CheckDef α)) :
    ∀ (cols : List (String × SemanticType)) (dup : Bool),
      ((executedIds config registry cols dup).1.count "DUPLICATE_ROWS" +
        (if dup then 1 else 0) ≤ 1)
      ∧ ((executedIds config registry cols dup).2 = false →
          (executedIds config registry cols dup).1.count "DUPLICATE_ROWS" = 0)
      ∧ (dup = true → (executedIds config registry cols dup).2 = true) := by
  intro cols
  induction cols with
  | nil =>
    intro dup
    refine ⟨?_, fun _ => rfl, fun h => h⟩
    cases dup <;> simp [executedIds]
  | cons p rest ih =>
    obtain ⟨col, stype⟩ := p
    intro dup
    unfold executedIds
    dsimp only
    cases dup with
    | true =>
      obtain ⟨ca, cb, cc⟩ := executedIdsForColumn_dup_inv config (registry stype) true
      set flag1 := (executedIdsForColumn config (registry stype) true).2 with hflag1
      obtain ⟨ra, rb, rc⟩ := ih flag1
      rw [List.count_append]
      have hf1 : flag1 = true := cc rfl
      have hcol0 : (executedIdsForColumn config (registry stype) true).1.count
          "DUPLICATE_ROWS" = 0 := by
        rw [if_pos rfl] at ca
        omega
      have hite : (if flag1 = true then 1 else 0) = 1 := by
        rw [hf1]
        simp
      have hrest0 : (executedIds config registry rest flag1).1.count "DUPLICATE_ROWS" = 0 := by
        omega
      refine ⟨?_, ?_, fun _ => rc hf1⟩
      · rw [hcol0, hrest0]
        simp
      · intro hflag
        rw [rc hf1] at hflag
        exact absurd hflag (by simp)
    | false =>
      obtain ⟨ca, cb, cc⟩ := executedIdsForColumn_dup_inv config (registry stype) false
      set flag1 := (executedIdsForColumn config (registry stype) false).2 with hflag1
      obtain ⟨ra, rb, rc⟩ := ih flag1
      rw [List.count_append]
      cases hf1 : flag1 with
      | false =>
        have hcol0 := cb hf1
        rw [hf1] at ra rb
        refine ⟨?_, ?_, fun h => absurd h (by simp)⟩
        · rw [hcol0]
          rw [show (if false = true then 1 else 0) = 0 from rfl] at ra ⊢
          omega
        · intro hflag
          rw [hcol0, rb hflag]
      | true =>
        have hite : (if flag1 = true then 1 else 0) = 1 := by
          rw [hf1]
          simp
        have hrest0 : (executedIds config registry rest flag1).1.count "DUPLICATE_ROWS" = 0 := by
          omega
        have hrcc : (executedIds config registry rest flag1).2 = true := rc hf1
        rw [hf1] at hrest0 hrcc
        refine ⟨?_, ?_, fun h => absurd h (by simp)⟩
        · rw [hrest0]
          rw [show (if false = true then 1 else 0) = 0 from rfl] at ca ⊢
          omega
        · intro hflag
          rw [hrcc] at hflag
          exact absurd hflag (by simp)


theorem applyOverride_check_id (config : Option Config) (cid : String) (r : CheckResult) :
    (applyOverride config cid r).check_id = r.check_id := by
  unfold applyOverride
  split
  · rfl
  · split <;> rfl

theorem runChecksForColumn_ids {α : Type} (config : Option Config) (x : α) (col : String) :
    ∀ (checks : List (CheckDef α)) (dup : Bool),
      (∀ c ∈ checks, ∀ y r, c.function y = Except.ok r → r.check_id = c.check_id) →
      (runChecksForColumn config checks x col dup).1.map (fun r => r.check_id) =
        (executedIdsForColumn config checks dup).1 := by
  intro checks
  induction checks with
  | nil => exact fun dup _ => rfl
  | cons c rest ih =>
    intro dup hid
    have hidc := hid c (List.mem_cons_self c rest)
    have hidr : ∀ c' ∈ rest, ∀ y r, c'.function y = Except.ok r → r.check_id = c'.check_id :=
      fun c' hc' => hid c' (List.mem_cons_of_mem c hc')
    by_cases h1 : (!(ConfigLoader.isCheckEnabled config c.check_id)) = true
    · unfold runChecksForColumn executedIdsForColumn
      rw [if_pos h1, if_pos h1]
      exact ih dup hidr
    · by_cases h2 : (c.check_id = "DUPLICATE_ROWS" && dup) = true
      · unfold runChecksForColumn executedIdsForColumn
        rw [if_neg h1, if_neg h1, if_pos h2, if_pos h2]
        exact ih dup hidr
      · unfold runChecksForColumn executedIdsForColumn
        rw [if_neg h1, if_neg h1, if_neg h2, if_neg h2]
        dsimp only
        rw [List.map_cons]
        congr 1
        · rw [applyOverride_check_id]
          unfold safeExecute
          cases hf : c.function x with
          | ok r => exact hidc x r hf
          | error e => rfl
        · exact ih _ hidr

theorem runColumns_ids {α : Type} (config : Option Config)
    (registry : SemanticType → List (CheckDef α)) (input : String → α) :
    ∀ (cols : List (String × SemanticType)) (dup : Bool),
      (∀ (stype : SemanticType) (c : CheckDef α), c ∈ registry stype →
        ∀ y r, c.function y = Except.ok r → r.check_id = c.check_id) →
      (runColumns config registry cols input dup).1.map (fun r => r.check_id) =
        (executedIds config registry cols dup).1 := by
  intro cols
  induction cols with
  | nil => exact fun dup _ => rfl
  | cons p rest ih =>
    obtain ⟨col, stype⟩ := p
    intro dup hid
    unfold runColumns executedIds
    dsimp only
    rw [List.map_append]
    rw [runChecksForColumn_ids config (input col) col (registry stype) dup
      (fun c hc => hid stype c hc)]
    rw [(runChecksForColumn_spec config (input col) col (registry stype) dup).2]
    rw [ih _ hid]

/-- C8: the dataset-wide DUPLICATE_ROWS check executes at most once per
run regardless of how many columns register it, tracked by the run-scoped
`_duplicate_checked` marker (fresh per engine): the executed-check trace
of a run started with the marker down contains at most one
DUPLICATE_ROWS entry, and — provided every check returns a record with
its own registered id, as all checks in the repository do — so does the
result list of the per-column phase. -/
theorem duplicate_rows_at_most_once :
    (∀ (α : Type) (config : Option Config) (registry : SemanticType → List (CheckDef α))
       (cols : List (String × SemanticType)),
        (executedIds config registry cols false).1.count "DUPLICATE_ROWS" ≤ 1)
    ∧ (∀ (α : Type) (config : Option Config) (registry : SemanticType → List (CheckDef α))
         (cols : List (String × SemanticType)) (input : String → α),
        (∀ (stype : SemanticType) (c : CheckDef α), c ∈ registry stype →
          ∀ y r, c.function y = Except.ok r → r.check_id = c.check_id) →
        ((runColumns config registry cols input false).1.filter
          (fun r => r.check_id = "DUPLICATE_ROWS")).length ≤ 1) := by
  constructor
  · intro α config registry cols
    have h := (executedIds_dup_inv config registry cols false).1
    simpa using h
  · intro α config registry cols input hid
    have hmap := runColumns_ids config registry input cols false hid
    have hcount : ((runColumns config registry cols input false).1.filter
        (fun r => r.check_id = "DUPLICATE_ROWS")).length =
        ((runColumns config registry cols input false).1.map (fun r => r.check_id)).count
          "DUPLICATE_ROWS" := by
      rw [← List.countP_eq_length_filter, List.count_eq_countP, List.countP_map]
      rfl
    rw [hcount, hmap]
    have h := (executedIds_dup_inv config registry cols false).1
    simpa using h


/-- Witness for C8: two columns that both register the DUPLICATE_ROWS
check still contribute at most one DUPLICATE_ROWS record. -/
theorem duplicate_rows_at_most_once_witness :
    (executedIds (α := Unit) none (fun _ => [⟨"DUPLICATE_ROWS", fun _ => Except.ok dupRec⟩])
      [("a", SemanticType.CATEGORICAL), ("b", SemanticType.CATEGORICAL)] false).1.count
        "DUPLICATE_ROWS" ≤ 1
    ∧ ((runColumns (α := Unit) none (fun _ => [⟨"DUPLICATE_ROWS", fun _ => Except.ok dupRec⟩])
        [("a", SemanticType.CATEGORICAL), ("b", SemanticType.CATEGORICAL)]
        (fun _ => ()) false).1.filter
          (fun r => r.check_id = "DUPLICATE_ROWS")).length ≤ 1 := by
  have hid : ∀ (stype : SemanticType) (c : CheckDef Unit),
      c ∈ (fun _ : SemanticType => [(⟨"DUPLICATE_ROWS", fun _ => Except.ok dupRec⟩ : CheckDef Unit)]) stype →
      ∀ y r, c.function y = Except.ok r → r.check_id = c.check_id := by
    intro stype c hc y r hf
    simp only [List.mem_singleton] at hc
    subst hc
    simp only at hf
    injection hf with hf
    rw [← hf]
    rfl
  exact ⟨duplicate_rows_at_most_once.1 Unit none _ _,
    duplicate_rows_at_most_once.2 Unit none _ _ (fun _ => ()) hid⟩


/-- C10: the synthetic record `_safe_execute` manufactures for a raising
check has `passed = True` and INFO severity; since the aggregator deducts
points and counts histogram issues only for records with
`passed = False`, appending such a record changes no column's score
(raw or stored) and no severity count. -/
theorem synthetic_records_never_penalize :
    (∀ (α : Type) (f : CheckFun α) (x : α) (cid col : String) (e : PyExc),
        f x = Except.error e →
        (safeExecute f x cid col).passed = true ∧
        (safeExecute f x cid col).severity = "INFO")
    ∧ (∀ (config : Option Config) (results : List CheckResult) (r : CheckResult),
        r.passed = true →
        (∀ c, columnRawScore config (results ++ [r]) c = columnRawScore config results c)
        ∧ (∀ c, (columnScoreEntry config (results ++ [r]) c).score =
            (columnScoreEntry config results c).score)
        ∧ issuesBySeverity (results ++ [r]) = issuesBySeverity results) := by
  constructor
  · intro α f x cid col e hf
    unfold safeExecute
    rw [hf]
    exact ⟨rfl, rfl⟩
  · intro config results r hr
    have key : ∀ c, ((colResults (results ++ [r]) c).filter (fun x => !x.passed)) =
        ((colResults results c).filter (fun x => !x.passed)) := by
      intro c
      unfold colResults
      rw [List.filter_append, List.filter_append]
      have h2 : (List.filter (fun x => !x.passed)
          (List.filter (fun x => decide (x.column = c)) [r])) = [] := by
        by_cases hc : r.column = c
        · simp [List.filter, hc, hr]
        · simp [List.filter, hc]
      rw [h2, List.append_nil]
    have hraw : ∀ c, columnRawScore config (results ++ [r]) c =
        columnRawScore config results c := by
      intro c
      unfold columnRawScore
      rw [key c]
    refine ⟨hraw, ?_, ?_⟩
    · intro c
      unfold columnScoreEntry
      dsimp only
      rw [hraw c]
    · unfold issuesBySeverity
      apply List.map_congr_left
      intro sev _
      rw [List.filter_append]
      have h3 : [r].filter (fun x => !x.passed && x.severity = sev) = [] := by
        simp [List.filter, hr]
      rw [h3, List.append_nil]

/-- Witness for C10: a concrete raising check and a concrete passing
record appended to a concrete result list. -/
theorem synthetic_records_never_penalize_witness :
    ((safeExecute (fun _ : Unit => Except.error (PyExc.mk "KeyError" "missing")) () "CHK" "c").passed = true
      ∧ (safeExecute (fun _ : Unit => Except.error (PyExc.mk "KeyError" "missing")) () "CHK" "c").severity = "INFO")
    ∧ ((∀ c, columnRawScore none (c5results ++ [c5rA]) c = columnRawScore none c5results c)
        ∧ issuesBySeverity (c5results ++ [c5rA]) = issuesBySeverity c5results) := by
  have h1 := synthetic_records_never_penalize.1 Unit
    (fun _ : Unit => Except.error (PyExc.mk "KeyError" "missing")) () "CHK" "c"
    (PyExc.mk "KeyError" "missing") rfl
  have h2 := synthetic_records_never_penalize.2 none c5results c5rA (by rfl)
  exact ⟨h1, h2.1, h2.2.2⟩

end DQA
